import Mathlib

/-!
# SyncedMemory (src/src/syncedmem.cpp)

A shallow embedding of the host/device synchronised buffer and the statements
of its specification that are settled against it.

Conventions of the embedding

* A pointer is a natural number, `0` is `NULL`; a pointer names a whole block.
* Host and device memory are two separate maps from a block and a byte offset
  to a byte.
* The build flag `CPU_ONLY` is a Boolean argument of every function. `DEBUG`
  is defined by line 10 of the source whenever `CPU_ONLY` is not, so the body
  of `check_device` is present exactly in the device build.
* `CHECK`, `CUDA_CHECK` and `NO_GPU` abort; an aborted call is `Outcome.fatal`
  and carries the state in which the abort happened.
* Everything the buffer calls but does not implement (allocators, copies,
  memsets, the device query) acts on `Env`, which also keeps a chronological
  trace of those calls.
* Lines 102, 107, 160 and 192 of the source assign to `own_gpu_data` and
  line 137 assigns to `own_cpu_data`. These are not the members
  `own_gpu_data_` and `own_cpu_data_` that the constructors initialise and the
  destructor, `check_device`, `set_cpu_data` and `set_gpu_data` read. The
  embedding keeps the two identifiers apart, as the text does: the assignments
  go to variables of the same names in `Env`.
-/

namespace caffe

/-- The enum `SyncedHead` of the class: where the authoritative copy lives. -/
inductive SyncedHead where
  | UNINITIALIZED
  | HEAD_AT_CPU
  | HEAD_AT_GPU
  | SYNCED
  deriving DecidableEq, Repr

/-- The data members of `SyncedMemory`, in the order of the constructor's
initialiser list, followed by `device_`. -/
structure SyncedMemory where
  cpu_ptr_ : Nat
  gpu_ptr_ : Nat
  head_ : SyncedHead
  size_ : Nat
  own_cpu_data_ : Bool
  own_gpu_data_ : Bool
  cpu_malloc_use_cuda_ : Bool
  device_ : Int
  deriving DecidableEq, Repr

/-- One call into an external collaborator, as recorded in the trace. -/
inductive Event where
  | host_malloc (ptr size : Nat)
  | host_free (ptr : Nat) (use_cuda : Bool)
  | host_memset (ptr size : Nat)
  | gpu_malloc (ptr size : Nat)
  | gpu_free (ptr : Nat)
  | gpu_memset (ptr size : Nat)
  | memcpy_d2h (src dst size : Nat)
  | memcpy_h2d (src dst size : Nat)
  | memcpy_async_h2d (src dst size stream : Nat)
  deriving DecidableEq, Repr

/-- Block contents: block, then byte offset, to byte. -/
abbrev Mem := Nat → Nat → Nat

/-- Everything outside the object that the source reads or writes. -/
structure Env where
  /-- The device `cudaGetDevice` reports. -/
  cur_device : Int
  /-- The `device` attribute `cudaPointerGetAttributes` reports for a pointer,
  `none` when that call fails. -/
  ptr_device : Nat → Option Int
  /-- The results of the coming host allocations: pointer and `use_cuda`. -/
  host_supply : List (Nat × Bool)
  /-- The results of the coming device allocations. -/
  gpu_supply : List Nat
  host_mem : Mem
  gpu_mem : Mem
  /-- The variable written by line 137 (`own_cpu_data = FALSE`). -/
  own_cpu_data : Bool
  /-- The variable written by lines 102, 107, 160 and 192 (`own_gpu_data = ...`). -/
  own_gpu_data : Bool
  trace : List Event

/-- The result of a call: it returns, or it aborts. -/
inductive Outcome (α : Type) where
  | ok (ret : α) (s : SyncedMemory) (e : Env)
  | fatal (s : SyncedMemory) (e : Env)

/-- Set the first `n` bytes of block `p` to `v`. -/
def mem_set (m : Mem) (p n v : Nat) : Mem :=
  fun q i => if q = p ∧ i < n then v else m q i

/-- Copy the first `n` bytes of block `sp` of `src` over block `dp` of `dst`. -/
def mem_copy (src : Mem) (sp : Nat) (dst : Mem) (dp n : Nat) : Mem :=
  fun q i => if q = dp ∧ i < n then src sp i else dst q i

/-- The first `n` bytes of block `p`. -/
def block_bytes (m : Mem) (p n : Nat) : List Nat :=
  (List.range n).map (m p)

/-- Overwrite the first bytes of block `p` with the pattern `bytes`: what the
caller does through a pointer returned by a mutable accessor. -/
def write_block (m : Mem) (p : Nat) (bytes : List Nat) : Mem :=
  fun q i => if q = p ∧ i < bytes.length then bytes.getD i 0 else m q i

/-- Modelled from the spec: the host allocator `CaffeMallocHost(&ptr, size,
&use_cuda)`, declared in caffe/syncedmem.hpp, which is not under src/. It
hands out the next block of `host_supply` together with the `use_cuda` flag;
an exhausted supply or a null result is an allocation failure, which is fatal
(`none`). The contents of the new block are whatever the memory held. -/
def CaffeMallocHost (size : Nat) (e : Env) : Option (Nat × Bool × Env) :=
  match e.host_supply with
  | [] => none
  | (p, use_cuda) :: rest =>
    if p = 0 then none
    else some (p, use_cuda,
      { e with host_supply := rest, trace := e.trace ++ [Event.host_malloc p size] })

/-- Modelled from the spec: the host free routine `CaffeFreeHost(ptr,
use_cuda)`, declared in caffe/syncedmem.hpp, which is not under src/. -/
def CaffeFreeHost (ptr : Nat) (use_cuda : Bool) (e : Env) : Env :=
  { e with trace := e.trace ++ [Event.host_free ptr use_cuda] }

/-- Modelled from the spec: the device allocator `CUDA_CHECK(cudaMalloc(&ptr,
size))`; a failure is fatal (`none`). -/
def cudaMalloc (size : Nat) (e : Env) : Option (Nat × Env) :=
  match e.gpu_supply with
  | [] => none
  | p :: rest =>
    if p = 0 then none
    else some (p, { e with gpu_supply := rest, trace := e.trace ++ [Event.gpu_malloc p size] })

/-- Modelled from the spec: the device free routine `CUDA_CHECK(cudaFree(ptr))`. -/
def cudaFree (ptr : Nat) (e : Env) : Env :=
  { e with trace := e.trace ++ [Event.gpu_free ptr] }

/-- Modelled from the spec: `caffe_memset(N, alpha, X)` of
caffe/util/math_functions.hpp, that is `memset(X, alpha, N)` on host memory. -/
def caffe_memset (N alpha X : Nat) (e : Env) : Env :=
  { e with host_mem := mem_set e.host_mem X N alpha,
           trace := e.trace ++ [Event.host_memset X N] }

/-- Modelled from the spec: `caffe_gpu_memset(N, alpha, X)`, that is
`cudaMemset(X, alpha, N)` on device memory. -/
def caffe_gpu_memset (N alpha X : Nat) (e : Env) : Env :=
  { e with gpu_mem := mem_set e.gpu_mem X N alpha,
           trace := e.trace ++ [Event.gpu_memset X N] }

/-- Modelled from the spec: `caffe_gpu_memcpy(N, X, Y)` with a device source
`X` and a host destination `Y`, the synchronous copy of line 81. -/
def caffe_gpu_memcpy_d2h (N X Y : Nat) (e : Env) : Env :=
  { e with host_mem := mem_copy e.gpu_mem X e.host_mem Y N,
           trace := e.trace ++ [Event.memcpy_d2h X Y N] }

/-- Modelled from the spec: `caffe_gpu_memcpy(N, X, Y)` with a host source `X`
and a device destination `Y`, the synchronous copy of line 109. -/
def caffe_gpu_memcpy_h2d (N X Y : Nat) (e : Env) : Env :=
  { e with gpu_mem := mem_copy e.host_mem X e.gpu_mem Y N,
           trace := e.trace ++ [Event.memcpy_h2d X Y N] }

/-- Modelled from the spec: `cudaMemcpyAsync(dst, src, count,
cudaMemcpyHostToDevice, stream)`; the copy is counted as complete when it is
issued. -/
def cudaMemcpyAsync (dst src count stream : Nat) (e : Env) : Env :=
  { e with gpu_mem := mem_copy e.host_mem src e.gpu_mem dst count,
           trace := e.trace ++ [Event.memcpy_async_h2d src dst count stream] }

/-- `SyncedMemory::SyncedMemory(size_t size)`, lines 16-24. In the device
build `device_` is the current device; in a `CPU_ONLY` build the source leaves
`device_` unset and `d0` stands for its indeterminate value. -/
def SyncedMemory.construct (CPU_ONLY : Bool) (size : Nat) (d0 : Int) (e : Env) :
    SyncedMemory :=
  { cpu_ptr_ := 0, gpu_ptr_ := 0, head_ := SyncedHead.UNINITIALIZED, size_ := size,
    own_cpu_data_ := false, own_gpu_data_ := false, cpu_malloc_use_cuda_ := false,
    device_ := if CPU_ONLY then d0 else e.cur_device }

/-- `SyncedMemory::SyncedMemory()`, lines 6-14: the same with `size_(0)`. -/
def SyncedMemory.construct_default (CPU_ONLY : Bool) (d0 : Int) (e : Env) : SyncedMemory :=
  SyncedMemory.construct CPU_ONLY 0 d0 e

/-- `SyncedMemory::check_device`, lines 39-61: `true` when no `CHECK` of it
fails. It changes nothing. -/
def check_device (CPU_ONLY : Bool) (s : SyncedMemory) (e : Env) : Bool :=
  if CPU_ONLY then true
  else if e.cur_device ≠ s.device_ then false
  else if s.gpu_ptr_ ≠ 0 ∧ s.own_gpu_data_ = true then
    match e.ptr_device s.gpu_ptr_ with
    | none => false
    | some d => decide (d = s.device_)
  else true

/-- `SyncedMemory::to_cpu`, lines 64-92. -/
def to_cpu (CPU_ONLY : Bool) (s : SyncedMemory) (e : Env) : Outcome Unit :=
  if check_device CPU_ONLY s e = false then Outcome.fatal s e
  else
    match s.head_ with
    | SyncedHead.UNINITIALIZED =>
      match CaffeMallocHost s.size_ e with
      | none => Outcome.fatal s e
      | some (p, use_cuda, e1) =>
        Outcome.ok ()
          { s with cpu_ptr_ := p, cpu_malloc_use_cuda_ := use_cuda,
                   head_ := SyncedHead.HEAD_AT_CPU, own_cpu_data_ := true }
          (caffe_memset s.size_ 0 p e1)
    | SyncedHead.HEAD_AT_CPU => Outcome.ok () s e
    | SyncedHead.HEAD_AT_GPU =>
      if CPU_ONLY then Outcome.fatal s e
      else if s.cpu_ptr_ = 0 then
        match CaffeMallocHost s.size_ e with
        | none => Outcome.fatal s e
        | some (p, use_cuda, e1) =>
          Outcome.ok ()
            { s with cpu_ptr_ := p, cpu_malloc_use_cuda_ := use_cuda,
                     own_cpu_data_ := true, head_ := SyncedHead.SYNCED }
            (caffe_gpu_memcpy_d2h s.size_ s.gpu_ptr_ p e1)
      else
        Outcome.ok () { s with head_ := SyncedHead.SYNCED }
          (caffe_gpu_memcpy_d2h s.size_ s.gpu_ptr_ s.cpu_ptr_ e)
    | SyncedHead.SYNCED => Outcome.ok () s e

/-- `SyncedMemory::to_gpu`, lines 94-121. The assignments of lines 102 and
107 go to `own_gpu_data`, not to the member `own_gpu_data_`. -/
def to_gpu (CPU_ONLY : Bool) (s : SyncedMemory) (e : Env) : Outcome Unit :=
  if check_device CPU_ONLY s e = false then Outcome.fatal s e
  else if CPU_ONLY then Outcome.fatal s e
  else
    match s.head_ with
    | SyncedHead.UNINITIALIZED =>
      match cudaMalloc s.size_ e with
      | none => Outcome.fatal s e
      | some (p, e1) =>
        Outcome.ok () { s with gpu_ptr_ := p, head_ := SyncedHead.HEAD_AT_GPU }
          { caffe_gpu_memset s.size_ 0 p e1 with own_gpu_data := true }
    | SyncedHead.HEAD_AT_CPU =>
      if s.gpu_ptr_ = 0 then
        match cudaMalloc s.size_ e with
        | none => Outcome.fatal s e
        | some (p, e1) =>
          Outcome.ok () { s with gpu_ptr_ := p, head_ := SyncedHead.SYNCED }
            (caffe_gpu_memcpy_h2d s.size_ s.cpu_ptr_ p { e1 with own_gpu_data := true })
      else
        Outcome.ok () { s with head_ := SyncedHead.SYNCED }
          (caffe_gpu_memcpy_h2d s.size_ s.cpu_ptr_ s.gpu_ptr_ e)
    | SyncedHead.HEAD_AT_GPU => Outcome.ok () s e
    | SyncedHead.SYNCED => Outcome.ok () s e

/-- `SyncedMemory::cpu_data`, lines 123-127. -/
def cpu_data (CPU_ONLY : Bool) (s : SyncedMemory) (e : Env) : Outcome Nat :=
  if check_device CPU_ONLY s e = false then Outcome.fatal s e
  else
    match to_cpu CPU_ONLY s e with
    | Outcome.fatal s1 e1 => Outcome.fatal s1 e1
    | Outcome.ok _ s1 e1 => Outcome.ok s1.cpu_ptr_ s1 e1

/-- `SyncedMemory::set_cpu_data`, lines 129-138. The assignment of line 137
goes to `own_cpu_data`, not to the member `own_cpu_data_`. -/
def set_cpu_data (CPU_ONLY : Bool) (data : Nat) (s : SyncedMemory) (e : Env) : Outcome Unit :=
  if check_device CPU_ONLY s e = false then Outcome.fatal s e
  else if data = 0 then Outcome.fatal s e
  else
    let e1 := if s.own_cpu_data_ = true then CaffeFreeHost s.cpu_ptr_ s.cpu_malloc_use_cuda_ e
              else e
    Outcome.ok () { s with cpu_ptr_ := data, head_ := SyncedHead.HEAD_AT_CPU }
      { e1 with own_cpu_data := false }

/-- `SyncedMemory::gpu_data`, lines 140-149. -/
def gpu_data (CPU_ONLY : Bool) (s : SyncedMemory) (e : Env) : Outcome Nat :=
  if check_device CPU_ONLY s e = false then Outcome.fatal s e
  else if CPU_ONLY then Outcome.fatal s e
  else
    match to_gpu CPU_ONLY s e with
    | Outcome.fatal s1 e1 => Outcome.fatal s1 e1
    | Outcome.ok _ s1 e1 => Outcome.ok s1.gpu_ptr_ s1 e1

/-- `SyncedMemory::set_gpu_data`, lines 151-165. The assignment of line 160
goes to `own_gpu_data`, not to the member `own_gpu_data_`. -/
def set_gpu_data (CPU_ONLY : Bool) (data : Nat) (s : SyncedMemory) (e : Env) : Outcome Unit :=
  if check_device CPU_ONLY s e = false then Outcome.fatal s e
  else if CPU_ONLY then Outcome.fatal s e
  else if data = 0 then Outcome.fatal s e
  else
    let e1 := if s.own_gpu_data_ = true then cudaFree s.gpu_ptr_ e else e
    Outcome.ok () { s with gpu_ptr_ := data, head_ := SyncedHead.HEAD_AT_GPU }
      { e1 with own_gpu_data := false }

/-- `SyncedMemory::mutable_cpu_data`, lines 167-172. -/
def mutable_cpu_data (CPU_ONLY : Bool) (s : SyncedMemory) (e : Env) : Outcome Nat :=
  if check_device CPU_ONLY s e = false then Outcome.fatal s e
  else
    match to_cpu CPU_ONLY s e with
    | Outcome.fatal s1 e1 => Outcome.fatal s1 e1
    | Outcome.ok _ s1 e1 =>
      Outcome.ok s1.cpu_ptr_ { s1 with head_ := SyncedHead.HEAD_AT_CPU } e1

/-- `SyncedMemory::mutable_gpu_data`, lines 174-184. -/
def mutable_gpu_data (CPU_ONLY : Bool) (s : SyncedMemory) (e : Env) : Outcome Nat :=
  if check_device CPU_ONLY s e = false then Outcome.fatal s e
  else if CPU_ONLY then Outcome.fatal s e
  else
    match to_gpu CPU_ONLY s e with
    | Outcome.fatal s1 e1 => Outcome.fatal s1 e1
    | Outcome.ok _ s1 e1 =>
      Outcome.ok s1.gpu_ptr_ { s1 with head_ := SyncedHead.HEAD_AT_GPU } e1

/-- `SyncedMemory::async_gpu_push`, lines 187-198; the function exists only
in the device build, so a `CPU_ONLY` build has no call to it (`fatal` here).
The assignment of line 192 goes to `own_gpu_data`, not to `own_gpu_data_`. -/
def async_gpu_push (CPU_ONLY : Bool) (stream : Nat) (s : SyncedMemory) (e : Env) :
    Outcome Unit :=
  if CPU_ONLY then Outcome.fatal s e
  else if check_device CPU_ONLY s e = false then Outcome.fatal s e
  else if s.head_ ≠ SyncedHead.HEAD_AT_CPU then Outcome.fatal s e
  else if s.gpu_ptr_ = 0 then
    match cudaMalloc s.size_ e with
    | none => Outcome.fatal s e
    | some (p, e1) =>
      Outcome.ok () { s with gpu_ptr_ := p, head_ := SyncedHead.SYNCED }
        (cudaMemcpyAsync p s.cpu_ptr_ s.size_ stream { e1 with own_gpu_data := true })
  else
    Outcome.ok () { s with head_ := SyncedHead.SYNCED }
      (cudaMemcpyAsync s.gpu_ptr_ s.cpu_ptr_ s.size_ stream e)

/-- `SyncedMemory::~SyncedMemory`, lines 26-37. -/
def SyncedMemory.destroy (CPU_ONLY : Bool) (s : SyncedMemory) (e : Env) : Outcome Unit :=
  if check_device CPU_ONLY s e = false then Outcome.fatal s e
  else
    let e1 := if s.cpu_ptr_ ≠ 0 ∧ s.own_cpu_data_ = true
              then CaffeFreeHost s.cpu_ptr_ s.cpu_malloc_use_cuda_ e else e
    let e2 := if CPU_ONLY then e1
              else if s.gpu_ptr_ ≠ 0 ∧ s.own_gpu_data_ = true then cudaFree s.gpu_ptr_ e1
              else e1
    Outcome.ok () s e2

/-! ## Calls, runs and reachable states -/

/-- The state and environment a call returns with, `none` when it aborts. -/
def Outcome.result {α : Type} : Outcome α → Option (SyncedMemory × Env)
  | Outcome.ok _ s e => some (s, e)
  | Outcome.fatal _ _ => none

/-- The public operations of the class. -/
inductive Call where
  | cpu_data
  | gpu_data
  | mutable_cpu_data
  | mutable_gpu_data
  | set_cpu_data (data : Nat)
  | set_gpu_data (data : Nat)
  | async_gpu_push (stream : Nat)
  deriving DecidableEq, Repr

/-- Run one public operation. -/
def Call.exec (CPU_ONLY : Bool) (c : Call) (s : SyncedMemory) (e : Env) :
    Option (SyncedMemory × Env) :=
  match c with
  | Call.cpu_data => (caffe.cpu_data CPU_ONLY s e).result
  | Call.gpu_data => (caffe.gpu_data CPU_ONLY s e).result
  | Call.mutable_cpu_data => (caffe.mutable_cpu_data CPU_ONLY s e).result
  | Call.mutable_gpu_data => (caffe.mutable_gpu_data CPU_ONLY s e).result
  | Call.set_cpu_data data => (caffe.set_cpu_data CPU_ONLY data s e).result
  | Call.set_gpu_data data => (caffe.set_gpu_data CPU_ONLY data s e).result
  | Call.async_gpu_push stream => (caffe.async_gpu_push CPU_ONLY stream s e).result

/-- Run a sequence of public operations, one after the other; `none` as soon
as one aborts. -/
def run (CPU_ONLY : Bool) : List Call → SyncedMemory → Env → Option (SyncedMemory × Env)
  | [], s, e => some (s, e)
  | c :: cs, s, e =>
    match c.exec CPU_ONLY s e with
    | none => none
    | some (s1, e1) => run CPU_ONLY cs s1 e1

/-- The object states that arise from construction by public operations that
return. Between two calls the environment may change in any way: each call
runs in an environment of its own. -/
inductive Reachable (CPU_ONLY : Bool) : SyncedMemory → Prop where
  | construct (size : Nat) (d0 : Int) (e : Env) :
      Reachable CPU_ONLY (SyncedMemory.construct CPU_ONLY size d0 e)
  | call (c : Call) (s : SyncedMemory) (e : Env) (s1 : SyncedMemory) (e1 : Env) :
      Reachable CPU_ONLY s → c.exec CPU_ONLY s e = some (s1, e1) → Reachable CPU_ONLY s1

/-- What the residency promises about the two pointers. -/
def residency_ok (s : SyncedMemory) : Prop :=
  match s.head_ with
  | SyncedHead.UNINITIALIZED => s.cpu_ptr_ = 0 ∧ s.gpu_ptr_ = 0
  | SyncedHead.HEAD_AT_CPU => s.cpu_ptr_ ≠ 0
  | SyncedHead.HEAD_AT_GPU => s.gpu_ptr_ ≠ 0
  | SyncedHead.SYNCED => s.cpu_ptr_ ≠ 0 ∧ s.gpu_ptr_ ≠ 0

/-- An allocation, on either side. -/
def Event.is_alloc : Event → Bool
  | Event.host_malloc _ _ => true
  | Event.gpu_malloc _ _ => true
  | _ => false

/-- A host allocation. -/
def Event.is_host_alloc : Event → Bool
  | Event.host_malloc _ _ => true
  | _ => false

/-- A copy between the two sides, in either direction, synchronous or not. -/
def Event.is_copy : Event → Bool
  | Event.memcpy_d2h _ _ _ => true
  | Event.memcpy_h2d _ _ _ => true
  | Event.memcpy_async_h2d _ _ _ _ => true
  | _ => false

/-- A device-to-host copy. -/
def Event.is_d2h : Event → Bool
  | Event.memcpy_d2h _ _ _ => true
  | _ => false

/-- A call of the host free routine. -/
def Event.is_host_free : Event → Bool
  | Event.host_free _ _ => true
  | _ => false

/-- A call of the device free routine. -/
def Event.is_gpu_free : Event → Bool
  | Event.gpu_free _ => true
  | _ => false

/-! ## The transition table of the specification (section 4.1) -/

/-- The four residency states of the specification. -/
inductive Residency where
  | Uninitialized
  | HostFresh
  | DeviceFresh
  | Synced
  deriving DecidableEq, Repr

/-- The specification's `ensure_host_fresh`, in its words: Uninitialized goes
to HostFresh, HostFresh is a no-op, DeviceFresh goes to Synced, Synced is a
no-op. -/
def spec_ensure_host_fresh : Residency → Residency
  | Residency.Uninitialized => Residency.HostFresh
  | Residency.HostFresh => Residency.HostFresh
  | Residency.DeviceFresh => Residency.Synced
  | Residency.Synced => Residency.Synced

/-- The specification's `ensure_device_fresh`, in its words: Uninitialized
goes to DeviceFresh, HostFresh goes to Synced, DeviceFresh is a no-op, Synced
is a no-op. -/
def spec_ensure_device_fresh : Residency → Residency
  | Residency.Uninitialized => Residency.DeviceFresh
  | Residency.HostFresh => Residency.Synced
  | Residency.DeviceFresh => Residency.DeviceFresh
  | Residency.Synced => Residency.Synced

/-- The four accessors, under the names of the source: `cpu_data` is the
specification's `read_host`, `mutable_cpu_data` its `write_host`, `gpu_data`
its `read_device` and `mutable_gpu_data` its `write_device`. -/
inductive Accessor where
  | cpu_data
  | mutable_cpu_data
  | gpu_data
  | mutable_gpu_data
  deriving DecidableEq, Repr

/-- The specification's table for the accessors: a read applies the ensure
function of its side; a write applies it and then forces the state to the
fresh state of its side. -/
def spec_table (r : Residency) : Accessor → Residency
  | Accessor.cpu_data => spec_ensure_host_fresh r
  | Accessor.mutable_cpu_data =>
    match spec_ensure_host_fresh r with
    | _ => Residency.HostFresh
  | Accessor.gpu_data => spec_ensure_device_fresh r
  | Accessor.mutable_gpu_data =>
    match spec_ensure_device_fresh r with
    | _ => Residency.DeviceFresh

/-- The call an accessor stands for. -/
def Accessor.call : Accessor → Call
  | Accessor.cpu_data => Call.cpu_data
  | Accessor.mutable_cpu_data => Call.mutable_cpu_data
  | Accessor.gpu_data => Call.gpu_data
  | Accessor.mutable_gpu_data => Call.mutable_gpu_data

/-- The residency state a value of `head_` stands for. -/
def SyncedHead.residency : SyncedHead → Residency
  | SyncedHead.UNINITIALIZED => Residency.Uninitialized
  | SyncedHead.HEAD_AT_CPU => Residency.HostFresh
  | SyncedHead.HEAD_AT_GPU => Residency.DeviceFresh
  | SyncedHead.SYNCED => Residency.Synced

/-! ## A concrete environment for the worked examples -/

/-- Device 0 is current, every pointer lives on device 0, the host allocator
will hand out block 5 and the device allocator block 7, every byte of memory
holds 170 and nothing has been called yet. -/
def env0 : Env :=
  { cur_device := 0, ptr_device := fun _ => some 0,
    host_supply := [(5, false)], gpu_supply := [7],
    host_mem := fun _ _ => 170, gpu_mem := fun _ _ => 170,
    own_cpu_data := false, own_gpu_data := false, trace := [] }

/-- A buffer of four bytes, just constructed in `env0` (device build). -/
def buf0 : SyncedMemory := SyncedMemory.construct false 4 0 env0

/-- The buffer `buf0` after `gpu_data`, as the source leaves it. -/
def buf0_gpu : SyncedMemory :=
  { buf0 with gpu_ptr_ := 7, head_ := SyncedHead.HEAD_AT_GPU }

/-- The environment `env0` after `gpu_data` on `buf0`. -/
def env0_gpu : Env :=
  { env0 with gpu_supply := [], gpu_mem := mem_set env0.gpu_mem 7 4 0, own_gpu_data := true,
              trace := [Event.gpu_malloc 7 4, Event.gpu_memset 7 4] }

/-- The buffer `buf0` after `cpu_data`. -/
def buf0_cpu : SyncedMemory :=
  { buf0 with cpu_ptr_ := 5, head_ := SyncedHead.HEAD_AT_CPU, own_cpu_data_ := true }

/-- The environment `env0` after `cpu_data` on `buf0`. -/
def env0_cpu : Env :=
  { env0 with host_supply := [], host_mem := mem_set env0.host_mem 5 4 0,
              trace := [Event.host_malloc 5 4, Event.host_memset 5 4] }

/-- The buffer `buf0` after `cpu_data` and then `gpu_data`, as the source
leaves it. -/
def buf0_synced : SyncedMemory :=
  { buf0_cpu with gpu_ptr_ := 7, head_ := SyncedHead.SYNCED }

/-- The environment `env0` after `cpu_data` and then `gpu_data` on `buf0`. -/
def env0_synced : Env :=
  { env0_cpu with gpu_supply := [],
                  gpu_mem := mem_copy env0_cpu.host_mem 5 env0_cpu.gpu_mem 7 4,
                  own_gpu_data := true,
                  trace := [Event.host_malloc 5 4, Event.host_memset 5 4,
                            Event.gpu_malloc 7 4, Event.memcpy_h2d 5 7 4] }

/-- The buffer `buf0_cpu` after `set_cpu_data(9)`, as the source leaves it. -/
def buf0_adopted : SyncedMemory :=
  { buf0_cpu with cpu_ptr_ := 9, head_ := SyncedHead.HEAD_AT_CPU }

/-- The environment `env0_cpu` after `set_cpu_data(9)` on `buf0_cpu`. -/
def env0_adopted : Env :=
  { env0_cpu with own_cpu_data := false,
                  trace := [Event.host_malloc 5 4, Event.host_memset 5 4,
                            Event.host_free 5 false] }

/-- The buffer `buf0_synced` after `mutable_gpu_data`: the device side is
fresh and the host block 5 is stale. -/
def buf0_stale_host : SyncedMemory :=
  { buf0_synced with head_ := SyncedHead.HEAD_AT_GPU }

/-- The environment `env0_cpu` after `async_gpu_push` on stream 3 for
`buf0_cpu`. -/
def env0_pushed : Env :=
  { env0_cpu with gpu_supply := [],
                  gpu_mem := mem_copy env0_cpu.host_mem 5 env0_cpu.gpu_mem 7 4,
                  own_gpu_data := true,
                  trace := [Event.host_malloc 5 4, Event.host_memset 5 4,
                            Event.gpu_malloc 7 4, Event.memcpy_async_h2d 5 7 4 3] }

/-- The environment `env0_cpu` after the current device has been switched to
device 1. -/
def env0_cpu_other_device : Env :=
  { env0_cpu with cur_device := 1 }

/-- The two blocks hold the same `size_` bytes whenever the residency is
`SYNCED`. -/
def blocks_agree (s : SyncedMemory) (e : Env) : Prop :=
  s.head_ = SyncedHead.SYNCED →
    block_bytes e.host_mem s.cpu_ptr_ s.size_ = block_bytes e.gpu_mem s.gpu_ptr_ s.size_

/-- A host-to-device copy, synchronous or not. -/
def Event.is_h2d : Event → Bool
  | Event.memcpy_h2d _ _ _ => true
  | Event.memcpy_async_h2d _ _ _ _ => true
  | _ => false

/-- A buffer of four bytes, just constructed in `env0` in a `CPU_ONLY`
build. -/
def buf0_cpu_only : SyncedMemory := SyncedMemory.construct true 4 0 env0

/-- The environment `env0_synced` after the destructor has run on
`buf0_synced`. -/
def env0_destroyed : Env :=
  { env0_synced with
      trace := [Event.host_malloc 5 4, Event.host_memset 5 4, Event.gpu_malloc 7 4,
                Event.memcpy_h2d 5 7 4, Event.host_free 5 false] }

/-- The buffer `buf0_gpu` after `set_gpu_data(9)`, as the source leaves it. -/
def buf0_gpu_adopted : SyncedMemory :=
  { buf0_gpu with gpu_ptr_ := 9, head_ := SyncedHead.HEAD_AT_GPU }

/-- The environment `env0_gpu` after `set_gpu_data(9)` on `buf0_gpu`: no call
has been added to the trace. -/
def env0_gpu_adopted : Env :=
  { env0_gpu with own_gpu_data := false }

/-! ## Memory lemmas -/

theorem block_bytes_mem_set (m : Mem) (p n v : Nat) :
    block_bytes (mem_set m p n v) p n = List.replicate n v := by
  apply List.ext_getElem
  · simp [block_bytes]
  · intro i h1 h2
    have hi : i < n := by simpa [block_bytes] using h1
    simp [block_bytes, mem_set, hi]

theorem block_bytes_mem_copy (src : Mem) (sp : Nat) (dst : Mem) (dp n : Nat) :
    block_bytes (mem_copy src sp dst dp n) dp n = block_bytes src sp n := by
  apply List.ext_getElem
  · simp [block_bytes]
  · intro i h1 h2
    have hi : i < n := by simpa [block_bytes] using h1
    simp [block_bytes, mem_copy, hi]

theorem block_bytes_write_block (m : Mem) (p : Nat) (bytes : List Nat) :
    block_bytes (write_block m p bytes) p bytes.length = bytes := by
  apply List.ext_getElem
  · simp [block_bytes]
  · intro i h1 h2
    simp [block_bytes, write_block, h2]

/-! ## The host and device transition rules -/

/-- C1: when the device check passes, `cpu_data` follows the host transition
rule. From `UNINITIALIZED` it takes a host block of `size_` bytes from the
allocator, zero-fills it, sets `own_cpu_data_` and ends in `HEAD_AT_CPU`; from
`HEAD_AT_GPU` (device build) it allocates only when `cpu_ptr_` is null, copies
`size_` bytes device to host and ends in `SYNCED`; from `HEAD_AT_CPU` and
`SYNCED` it changes nothing. It returns the resulting `cpu_ptr_`. -/
theorem cpu_data_host_rule (CPU_ONLY : Bool) (s : SyncedMemory) (e : Env)
    (hdev : check_device CPU_ONLY s e = true) :
    (s.head_ = SyncedHead.UNINITIALIZED →
      ∀ p uc rest, e.host_supply = (p, uc) :: rest → p ≠ 0 →
        cpu_data CPU_ONLY s e = Outcome.ok p
          { s with cpu_ptr_ := p, cpu_malloc_use_cuda_ := uc,
                   head_ := SyncedHead.HEAD_AT_CPU, own_cpu_data_ := true }
          { e with host_supply := rest, host_mem := mem_set e.host_mem p s.size_ 0,
                   trace := e.trace ++
                     [Event.host_malloc p s.size_, Event.host_memset p s.size_] }
        ∧ block_bytes (mem_set e.host_mem p s.size_ 0) p s.size_
            = List.replicate s.size_ 0) ∧
    (s.head_ = SyncedHead.HEAD_AT_GPU → CPU_ONLY = false → s.cpu_ptr_ = 0 →
      ∀ p uc rest, e.host_supply = (p, uc) :: rest → p ≠ 0 →
        cpu_data CPU_ONLY s e = Outcome.ok p
          { s with cpu_ptr_ := p, cpu_malloc_use_cuda_ := uc,
                   head_ := SyncedHead.SYNCED, own_cpu_data_ := true }
          { e with host_supply := rest,
                   host_mem := mem_copy e.gpu_mem s.gpu_ptr_ e.host_mem p s.size_,
                   trace := e.trace ++
                     [Event.host_malloc p s.size_, Event.memcpy_d2h s.gpu_ptr_ p s.size_] }
        ∧ block_bytes (mem_copy e.gpu_mem s.gpu_ptr_ e.host_mem p s.size_) p s.size_
            = block_bytes e.gpu_mem s.gpu_ptr_ s.size_) ∧
    (s.head_ = SyncedHead.HEAD_AT_GPU → CPU_ONLY = false → s.cpu_ptr_ ≠ 0 →
        cpu_data CPU_ONLY s e = Outcome.ok s.cpu_ptr_
          { s with head_ := SyncedHead.SYNCED }
          { e with host_mem := mem_copy e.gpu_mem s.gpu_ptr_ e.host_mem s.cpu_ptr_ s.size_,
                   trace := e.trace ++ [Event.memcpy_d2h s.gpu_ptr_ s.cpu_ptr_ s.size_] }
        ∧ block_bytes (mem_copy e.gpu_mem s.gpu_ptr_ e.host_mem s.cpu_ptr_ s.size_)
              s.cpu_ptr_ s.size_
            = block_bytes e.gpu_mem s.gpu_ptr_ s.size_) ∧
    (s.head_ = SyncedHead.HEAD_AT_CPU ∨ s.head_ = SyncedHead.SYNCED →
        cpu_data CPU_ONLY s e = Outcome.ok s.cpu_ptr_ s e) := by
  refine ⟨?_, ?_, ?_, ?_⟩
  · intro hh p uc rest hs hp
    refine ⟨?_, block_bytes_mem_set _ _ _ _⟩
    simp [cpu_data, to_cpu, hdev, hh, CaffeMallocHost, hs, hp, caffe_memset]
  · intro hh hc h0 p uc rest hs hp
    subst hc
    refine ⟨?_, block_bytes_mem_copy _ _ _ _ _⟩
    simp [cpu_data, to_cpu, hdev, hh, h0, CaffeMallocHost, hs, hp, caffe_gpu_memcpy_d2h]
  · intro hh hc h0
    subst hc
    refine ⟨?_, block_bytes_mem_copy _ _ _ _ _⟩
    simp [cpu_data, to_cpu, hdev, hh, h0, caffe_gpu_memcpy_d2h]
  · intro hh
    rcases hh with hh | hh <;> simp [cpu_data, to_cpu, hdev, hh]

/-- C1, worked examples, one for each case of the rule: the fresh four-byte
buffer (`UNINITIALIZED`), the buffer after `gpu_data` (`HEAD_AT_GPU`, no host
block yet), the buffer after `cpu_data`, `gpu_data`, `mutable_gpu_data`
(`HEAD_AT_GPU`, host block 5 present) and the buffer after `cpu_data`
(`HEAD_AT_CPU`). -/
theorem cpu_data_host_rule_witness :
    (check_device false buf0 env0 = true ∧
      cpu_data false buf0 env0 = Outcome.ok 5 buf0_cpu env0_cpu ∧
      block_bytes env0_cpu.host_mem 5 4 = [0, 0, 0, 0]) ∧
    (check_device false buf0_gpu env0_gpu = true ∧
      ∃ s1 e1, cpu_data false buf0_gpu env0_gpu = Outcome.ok 5 s1 e1 ∧
        s1.head_ = SyncedHead.SYNCED ∧ s1.own_cpu_data_ = true ∧
        e1.trace = env0_gpu.trace ++ [Event.host_malloc 5 4, Event.memcpy_d2h 7 5 4] ∧
        block_bytes e1.host_mem 5 4 = block_bytes env0_gpu.gpu_mem 7 4) ∧
    (check_device false buf0_stale_host env0_synced = true ∧
      ∃ s1 e1, cpu_data false buf0_stale_host env0_synced = Outcome.ok 5 s1 e1 ∧
        s1.head_ = SyncedHead.SYNCED ∧
        e1.trace = env0_synced.trace ++ [Event.memcpy_d2h 7 5 4] ∧
        block_bytes e1.host_mem 5 4 = block_bytes env0_synced.gpu_mem 7 4) ∧
    (check_device false buf0_cpu env0_cpu = true ∧
      cpu_data false buf0_cpu env0_cpu = Outcome.ok 5 buf0_cpu env0_cpu) :=
  ⟨⟨by decide,
     (cpu_data_host_rule false buf0 env0 (by decide)).1 rfl 5 false [] rfl (by decide)⟩,
   ⟨by decide, _, _,
     ((cpu_data_host_rule false buf0_gpu env0_gpu (by decide)).2.1 rfl rfl rfl
        5 false [] rfl (by decide)).1, rfl, rfl, rfl,
     ((cpu_data_host_rule false buf0_gpu env0_gpu (by decide)).2.1 rfl rfl rfl
        5 false [] rfl (by decide)).2⟩,
   ⟨by decide, _, _,
     ((cpu_data_host_rule false buf0_stale_host env0_synced (by decide)).2.2.1 rfl rfl
        (by decide)).1, rfl, rfl,
     ((cpu_data_host_rule false buf0_stale_host env0_synced (by decide)).2.2.1 rfl rfl
        (by decide)).2⟩,
   ⟨by decide,
     (cpu_data_host_rule false buf0_cpu env0_cpu (by decide)).2.2.2 (Or.inl rfl)⟩⟩

/-- C2, the code at the failing input: on the fresh four-byte buffer of the
device build `gpu_data` allocates block 7, zero-fills it, returns it and ends
in `HEAD_AT_GPU`, but the member `own_gpu_data_` is still false afterwards (the
assignment of line 102 went to `own_gpu_data`), and the destructor then frees
nothing. The same from `HEAD_AT_CPU` (line 107): after `cpu_data`, `gpu_data`
allocates block 7, copies host to device and ends in `SYNCED` with
`own_gpu_data_` still false. -/
theorem gpu_data_fresh_own_gpu_data_stays_false :
    gpu_data false buf0 env0 = Outcome.ok 7 buf0_gpu env0_gpu
    ∧ buf0_gpu.gpu_ptr_ = 7 ∧ buf0_gpu.head_ = SyncedHead.HEAD_AT_GPU
    ∧ buf0_gpu.own_gpu_data_ = false
    ∧ env0_gpu.own_gpu_data = true
    ∧ env0_gpu.trace = [Event.gpu_malloc 7 4, Event.gpu_memset 7 4]
    ∧ block_bytes env0_gpu.gpu_mem 7 4 = [0, 0, 0, 0]
    ∧ SyncedMemory.destroy false buf0_gpu env0_gpu = Outcome.ok () buf0_gpu env0_gpu
    ∧ gpu_data false buf0_cpu env0_cpu = Outcome.ok 7 buf0_synced env0_synced
    ∧ buf0_synced.head_ = SyncedHead.SYNCED
    ∧ buf0_synced.own_gpu_data_ = false := by
  refine ⟨rfl, rfl, rfl, rfl, rfl, rfl, by decide, rfl, rfl, rfl, rfl⟩

/-! ## Invariants of the reachable states -/

theorem CaffeMallocHost_some (size : Nat) (e : Env) (p : Nat) (uc : Bool) (e1 : Env)
    (h : CaffeMallocHost size e = some (p, uc, e1)) :
    p ≠ 0 ∧ ∃ rest, e.host_supply = (p, uc) :: rest ∧
      e1 = { e with host_supply := rest, trace := e.trace ++ [Event.host_malloc p size] } := by
  unfold CaffeMallocHost at h
  split at h
  · simp at h
  · rename_i q uq rest hs
    by_cases hq : q = 0
    · simp [hq] at h
    · simp only [hq, if_false, Option.some.injEq, Prod.mk.injEq] at h
      obtain ⟨rfl, rfl, rfl⟩ := h
      exact ⟨hq, rest, hs, rfl⟩

theorem cudaMalloc_some (size : Nat) (e : Env) (p : Nat) (e1 : Env)
    (h : cudaMalloc size e = some (p, e1)) :
    p ≠ 0 ∧ ∃ rest, e.gpu_supply = p :: rest ∧
      e1 = { e with gpu_supply := rest, trace := e.trace ++ [Event.gpu_malloc p size] } := by
  unfold cudaMalloc at h
  split at h
  · simp at h
  · rename_i q rest hs
    by_cases hq : q = 0
    · simp [hq] at h
    · simp only [hq, if_false, Option.some.injEq, Prod.mk.injEq] at h
      obtain ⟨rfl, rfl⟩ := h
      exact ⟨hq, rest, hs, rfl⟩

theorem to_cpu_preserves (b : Bool) (s : SyncedMemory) (e : Env) (u : Unit)
    (s1 : SyncedMemory) (e1 : Env) (h : to_cpu b s e = Outcome.ok u s1 e1)
    (hi : residency_ok s) :
    residency_ok s1 ∧ s1.own_gpu_data_ = s.own_gpu_data_ ∧ s1.gpu_ptr_ = s.gpu_ptr_ ∧
      s1.device_ = s.device_ ∧ s1.size_ = s.size_ ∧
      (s1.head_ = SyncedHead.HEAD_AT_CPU ∨ s1.head_ = SyncedHead.SYNCED) := by
  simp only [to_cpu] at h
  repeat' split at h
  all_goals first
    | (simp at h; done)
    | (simp only [Outcome.ok.injEq] at h
       obtain ⟨-, rfl, -⟩ := h
       have hp := fun p uc e1 h => (CaffeMallocHost_some s.size_ e p uc e1 h).1
       simp_all [residency_ok])

theorem to_gpu_preserves (b : Bool) (s : SyncedMemory) (e : Env) (u : Unit)
    (s1 : SyncedMemory) (e1 : Env) (h : to_gpu b s e = Outcome.ok u s1 e1)
    (hi : residency_ok s) :
    residency_ok s1 ∧ s1.own_gpu_data_ = s.own_gpu_data_ ∧ s1.cpu_ptr_ = s.cpu_ptr_ ∧
      s1.own_cpu_data_ = s.own_cpu_data_ ∧ s1.device_ = s.device_ ∧ s1.size_ = s.size_ ∧
      (s1.head_ = SyncedHead.HEAD_AT_GPU ∨ s1.head_ = SyncedHead.SYNCED) := by
  simp only [to_gpu] at h
  repeat' split at h
  all_goals first
    | (simp at h; done)
    | (simp only [Outcome.ok.injEq] at h
       obtain ⟨-, rfl, -⟩ := h
       have hp := fun p e1 h => (cudaMalloc_some s.size_ e p e1 h).1
       simp_all [residency_ok])

theorem exec_preserves (b : Bool) (c : Call) (s : SyncedMemory) (e : Env)
    (s1 : SyncedMemory) (e1 : Env) (h : c.exec b s e = some (s1, e1))
    (hi : residency_ok s) (hg : s.own_gpu_data_ = false) :
    residency_ok s1 ∧ s1.own_gpu_data_ = false := by
  cases c with
  | cpu_data =>
    simp only [Call.exec, cpu_data] at h
    split at h
    · simp [Outcome.result] at h
    · split at h
      · simp [Outcome.result] at h
      · rename_i u s2 e2 ht
        simp only [Outcome.result, Option.some.injEq, Prod.mk.injEq] at h
        obtain ⟨rfl, rfl⟩ := h
        have := to_cpu_preserves b s e u _ _ ht hi
        exact ⟨this.1, by rw [this.2.1, hg]⟩
  | gpu_data =>
    simp only [Call.exec, gpu_data] at h
    split at h
    · simp [Outcome.result] at h
    · split at h
      · simp [Outcome.result] at h
      · split at h
        · simp [Outcome.result] at h
        · rename_i u s2 e2 ht
          simp only [Outcome.result, Option.some.injEq, Prod.mk.injEq] at h
          obtain ⟨rfl, rfl⟩ := h
          have := to_gpu_preserves b s e u _ _ ht hi
          exact ⟨this.1, by rw [this.2.1, hg]⟩
  | mutable_cpu_data =>
    simp only [Call.exec, mutable_cpu_data] at h
    split at h
    · simp [Outcome.result] at h
    · split at h
      · simp [Outcome.result] at h
      · rename_i u s2 e2 ht
        simp only [Outcome.result, Option.some.injEq, Prod.mk.injEq] at h
        obtain ⟨rfl, rfl⟩ := h
        have := to_cpu_preserves b s e u _ _ ht hi
        refine ⟨?_, by simp [this.2.1, hg]⟩
        rcases this.2.2.2.2.2 with h2 | h2 <;> have h1 := this.1 <;>
          simp_all [residency_ok]
  | mutable_gpu_data =>
    simp only [Call.exec, mutable_gpu_data] at h
    split at h
    · simp [Outcome.result] at h
    · split at h
      · simp [Outcome.result] at h
      · split at h
        · simp [Outcome.result] at h
        · rename_i u s2 e2 ht
          simp only [Outcome.result, Option.some.injEq, Prod.mk.injEq] at h
          obtain ⟨rfl, rfl⟩ := h
          have := to_gpu_preserves b s e u _ _ ht hi
          refine ⟨?_, by simp [this.2.1, hg]⟩
          rcases this.2.2.2.2.2.2 with h2 | h2 <;> have h1 := this.1 <;>
            simp_all [residency_ok]
  | set_cpu_data data =>
    simp only [Call.exec, set_cpu_data] at h
    repeat' split at h
    all_goals first
      | (simp [Outcome.result] at h; done)
      | (simp only [Outcome.result, Option.some.injEq, Prod.mk.injEq] at h
         obtain ⟨rfl, -⟩ := h
         simp_all [residency_ok])
  | set_gpu_data data =>
    simp only [Call.exec, set_gpu_data] at h
    repeat' split at h
    all_goals first
      | (simp [Outcome.result] at h; done)
      | (simp only [Outcome.result, Option.some.injEq, Prod.mk.injEq] at h
         obtain ⟨rfl, -⟩ := h
         simp_all [residency_ok])
  | async_gpu_push stream =>
    simp only [Call.exec, async_gpu_push] at h
    repeat' split at h
    all_goals first
      | (simp [Outcome.result] at h; done)
      | (simp only [Outcome.result, Option.some.injEq, Prod.mk.injEq] at h
         obtain ⟨rfl, -⟩ := h
         have hp := fun p e1 h => (cudaMalloc_some s.size_ e p e1 h).1
         simp_all [residency_ok])

/-- In every reachable state the pointers are as the residency promises, and
the member `own_gpu_data_` is false: no line of the source assigns to it after
the constructor. -/
theorem reachable_inv (b : Bool) (s : SyncedMemory) (h : Reachable b s) :
    residency_ok s ∧ s.own_gpu_data_ = false := by
  induction h with
  | construct size d0 e => simp [SyncedMemory.construct, residency_ok]
  | call c s e s1 e1 _ hx ih => exact exec_preserves b c s e s1 e1 hx ih.1 ih.2

theorem to_cpu_head (b : Bool) (s : SyncedMemory) (e : Env) (u : Unit)
    (s1 : SyncedMemory) (e1 : Env) (h : to_cpu b s e = Outcome.ok u s1 e1) :
    s1.head_.residency = spec_ensure_host_fresh s.head_.residency := by
  simp only [to_cpu] at h
  repeat' split at h
  all_goals first
    | (simp at h; done)
    | (simp only [Outcome.ok.injEq] at h
       obtain ⟨-, rfl, -⟩ := h
       simp_all [SyncedHead.residency, spec_ensure_host_fresh])

theorem to_gpu_head (b : Bool) (s : SyncedMemory) (e : Env) (u : Unit)
    (s1 : SyncedMemory) (e1 : Env) (h : to_gpu b s e = Outcome.ok u s1 e1) :
    s1.head_.residency = spec_ensure_device_fresh s.head_.residency := by
  simp only [to_gpu] at h
  repeat' split at h
  all_goals first
    | (simp at h; done)
    | (simp only [Outcome.ok.injEq] at h
       obtain ⟨-, rfl, -⟩ := h
       simp_all [SyncedHead.residency, spec_ensure_device_fresh])

theorem residency_injective (h1 h2 : SyncedHead) (h : h1.residency = h2.residency) :
    h1 = h2 := by
  cases h1 <;> cases h2 <;> simp [SyncedHead.residency] at h <;> rfl

theorem exec_cpu_only (c : Call) (s : SyncedMemory) (e : Env)
    (s1 : SyncedMemory) (e1 : Env) (h : c.exec true s e = some (s1, e1))
    (hh : s.head_ = SyncedHead.UNINITIALIZED ∨ s.head_ = SyncedHead.HEAD_AT_CPU) :
    s1.head_ = SyncedHead.HEAD_AT_CPU := by
  cases c with
  | cpu_data =>
    simp only [Call.exec, cpu_data] at h
    split at h
    · simp [Outcome.result] at h
    · split at h
      · simp [Outcome.result] at h
      · rename_i u s2 e2 ht
        simp only [Outcome.result, Option.some.injEq, Prod.mk.injEq] at h
        obtain ⟨rfl, rfl⟩ := h
        have := to_cpu_head true s e u _ _ ht
        apply residency_injective
        rcases hh with hh | hh <;>
          simpa [hh, SyncedHead.residency, spec_ensure_host_fresh] using this
  | gpu_data => simp [Call.exec, gpu_data, Outcome.result] at h
  | mutable_cpu_data =>
    simp only [Call.exec, mutable_cpu_data] at h
    split at h
    · simp [Outcome.result] at h
    · split at h
      · simp [Outcome.result] at h
      · simp only [Outcome.result, Option.some.injEq, Prod.mk.injEq] at h
        obtain ⟨rfl, rfl⟩ := h
        rfl
  | mutable_gpu_data => simp [Call.exec, mutable_gpu_data, Outcome.result] at h
  | set_cpu_data data =>
    simp only [Call.exec, set_cpu_data] at h
    repeat' split at h
    all_goals first
      | (simp [Outcome.result] at h; done)
      | (simp only [Outcome.result, Option.some.injEq, Prod.mk.injEq] at h
         obtain ⟨rfl, -⟩ := h
         rfl)
  | set_gpu_data data => simp [Call.exec, set_gpu_data, Outcome.result] at h
  | async_gpu_push stream => simp [Call.exec, async_gpu_push, Outcome.result] at h

/-- In a `CPU_ONLY` build the residency never leaves the host side. -/
theorem reachable_cpu_only (s : SyncedMemory) (h : Reachable true s) :
    s.head_ = SyncedHead.UNINITIALIZED ∨ s.head_ = SyncedHead.HEAD_AT_CPU := by
  induction h with
  | construct size d0 e => simp [SyncedMemory.construct]
  | call c s e s1 e1 _ hx ih => exact Or.inr (exec_cpu_only c s e s1 e1 hx ih)

theorem to_cpu_returns (b : Bool) (s : SyncedMemory) (e : Env)
    (hdev : check_device b s e = true)
    (hb : b = true → s.head_ ≠ SyncedHead.HEAD_AT_GPU)
    (hsup : s.head_ = SyncedHead.UNINITIALIZED ∨ s.cpu_ptr_ = 0 →
      ∃ p uc rest, e.host_supply = (p, uc) :: rest ∧ p ≠ 0) :
    ∃ s0 e0, to_cpu b s e = Outcome.ok () s0 e0 := by
  cases hh : s.head_ with
  | UNINITIALIZED =>
    obtain ⟨p, uc, rest, hs, hp⟩ := hsup (Or.inl hh)
    simp [to_cpu, hdev, hh, CaffeMallocHost, hs, hp]
  | HEAD_AT_CPU => simp [to_cpu, hdev, hh]
  | HEAD_AT_GPU =>
    have hb1 : b = false := by
      cases b
      · rfl
      · exact absurd hh (hb rfl)
    subst hb1
    by_cases h0 : s.cpu_ptr_ = 0
    · obtain ⟨p, uc, rest, hs, hp⟩ := hsup (Or.inr h0)
      simp [to_cpu, hdev, hh, h0, CaffeMallocHost, hs, hp]
    · simp [to_cpu, hdev, hh, h0]
  | SYNCED => simp [to_cpu, hdev, hh]

theorem to_gpu_returns (s : SyncedMemory) (e : Env)
    (hdev : check_device false s e = true)
    (hsup : s.head_ = SyncedHead.UNINITIALIZED ∨ s.gpu_ptr_ = 0 →
      ∃ p rest, e.gpu_supply = p :: rest ∧ p ≠ 0) :
    ∃ s0 e0, to_gpu false s e = Outcome.ok () s0 e0 := by
  cases hh : s.head_ with
  | UNINITIALIZED =>
    obtain ⟨p, rest, hs, hp⟩ := hsup (Or.inl hh)
    simp [to_gpu, hdev, hh, cudaMalloc, hs, hp]
  | HEAD_AT_CPU =>
    by_cases h0 : s.gpu_ptr_ = 0
    · obtain ⟨p, rest, hs, hp⟩ := hsup (Or.inr h0)
      simp [to_gpu, hdev, hh, h0, cudaMalloc, hs, hp]
    · simp [to_gpu, hdev, hh, h0]
  | HEAD_AT_GPU => simp [to_gpu, hdev, hh]
  | SYNCED => simp [to_gpu, hdev, hh]

/-! ## The mutable accessors -/

/-- C3: in a reachable state, when the device check passes and the allocator
can serve a missing block, `mutable_cpu_data` returns: it ends with `head_ =
HEAD_AT_CPU` whatever the residency was, returns a non-null host block, and
every other field is as `to_cpu` left it. In the device build the same holds
of `mutable_gpu_data`, `HEAD_AT_GPU` and `to_gpu`. -/
theorem mutable_accessors_force_residency (CPU_ONLY : Bool) (s : SyncedMemory) (e : Env)
    (hr : Reachable CPU_ONLY s)
    (hdev : check_device CPU_ONLY s e = true)
    (hhost : s.cpu_ptr_ = 0 → ∃ p uc rest, e.host_supply = (p, uc) :: rest ∧ p ≠ 0)
    (hgpu : s.gpu_ptr_ = 0 → ∃ p rest, e.gpu_supply = p :: rest ∧ p ≠ 0) :
    (∃ s0 e0, to_cpu CPU_ONLY s e = Outcome.ok () s0 e0 ∧
      mutable_cpu_data CPU_ONLY s e =
        Outcome.ok s0.cpu_ptr_ { s0 with head_ := SyncedHead.HEAD_AT_CPU } e0 ∧
      s0.cpu_ptr_ ≠ 0) ∧
    (CPU_ONLY = false → ∃ s0 e0, to_gpu CPU_ONLY s e = Outcome.ok () s0 e0 ∧
      mutable_gpu_data CPU_ONLY s e =
        Outcome.ok s0.gpu_ptr_ { s0 with head_ := SyncedHead.HEAD_AT_GPU } e0 ∧
      s0.gpu_ptr_ ≠ 0) := by
  have hi := (reachable_inv CPU_ONLY s hr).1
  have hu : s.head_ = SyncedHead.UNINITIALIZED → s.cpu_ptr_ = 0 ∧ s.gpu_ptr_ = 0 := by
    intro hh
    simpa [residency_ok, hh] using hi
  constructor
  · have hb : CPU_ONLY = true → s.head_ ≠ SyncedHead.HEAD_AT_GPU := by
      intro hc
      subst hc
      rcases reachable_cpu_only s hr with h | h <;> simp [h]
    obtain ⟨s0, e0, h0⟩ := to_cpu_returns CPU_ONLY s e hdev hb
      (fun h => hhost (h.elim (fun hh => (hu hh).1) id))
    refine ⟨s0, e0, h0, by simp [mutable_cpu_data, hdev, h0], ?_⟩
    have hp := to_cpu_preserves CPU_ONLY s e () s0 e0 h0 hi
    have h1 := hp.1
    rcases hp.2.2.2.2.2 with h | h <;> simp_all [residency_ok]
  · intro hc
    subst hc
    obtain ⟨s0, e0, h0⟩ := to_gpu_returns s e hdev
      (fun h => hgpu (h.elim (fun hh => (hu hh).2) id))
    refine ⟨s0, e0, h0, by simp [mutable_gpu_data, hdev, h0], ?_⟩
    have hp := to_gpu_preserves false s e () s0 e0 h0 hi
    have h1 := hp.1
    rcases hp.2.2.2.2.2.2 with h | h <;> simp_all [residency_ok]

/-- C3, worked example: from the `SYNCED` state reached by `cpu_data` and
`gpu_data` on the fresh buffer, both mutable accessors return with the forced
residency and a non-null block. -/
theorem mutable_accessors_force_residency_witness :
    Reachable false buf0_synced ∧ check_device false buf0_synced env0_synced = true ∧
    (∃ s0 e0, to_cpu false buf0_synced env0_synced = Outcome.ok () s0 e0 ∧
      mutable_cpu_data false buf0_synced env0_synced =
        Outcome.ok s0.cpu_ptr_ { s0 with head_ := SyncedHead.HEAD_AT_CPU } e0 ∧
      s0.cpu_ptr_ ≠ 0) ∧
    (∃ s0 e0, to_gpu false buf0_synced env0_synced = Outcome.ok () s0 e0 ∧
      mutable_gpu_data false buf0_synced env0_synced =
        Outcome.ok s0.gpu_ptr_ { s0 with head_ := SyncedHead.HEAD_AT_GPU } e0 ∧
      s0.gpu_ptr_ ≠ 0) :=
  have hr : Reachable false buf0_synced :=
    Reachable.call Call.gpu_data buf0_cpu env0_cpu buf0_synced env0_synced
      (Reachable.call Call.cpu_data buf0 env0 buf0_cpu env0_cpu
        (Reachable.construct 4 0 env0) rfl) rfl
  ⟨hr, by decide,
    (mutable_accessors_force_residency false buf0_synced env0_synced hr (by decide)
      (fun h => absurd h (by decide)) (fun h => absurd h (by decide))).1,
    (mutable_accessors_force_residency false buf0_synced env0_synced hr (by decide)
      (fun h => absurd h (by decide)) (fun h => absurd h (by decide))).2 rfl⟩

/-! ## The residency follows the table of the specification -/

theorem accessor_exec_head (b : Bool) (a : Accessor) (s : SyncedMemory) (e : Env)
    (s1 : SyncedMemory) (e1 : Env) (h : a.call.exec b s e = some (s1, e1)) :
    s1.head_.residency = spec_table s.head_.residency a := by
  cases a with
  | cpu_data =>
    simp only [Accessor.call, Call.exec, cpu_data] at h
    split at h
    · simp [Outcome.result] at h
    · split at h
      · simp [Outcome.result] at h
      · rename_i u s2 e2 ht
        simp only [Outcome.result, Option.some.injEq, Prod.mk.injEq] at h
        obtain ⟨rfl, rfl⟩ := h
        exact to_cpu_head b s e u _ _ ht
  | mutable_cpu_data =>
    simp only [Accessor.call, Call.exec, mutable_cpu_data] at h
    split at h
    · simp [Outcome.result] at h
    · split at h
      · simp [Outcome.result] at h
      · simp only [Outcome.result, Option.some.injEq, Prod.mk.injEq] at h
        obtain ⟨rfl, rfl⟩ := h
        rfl
  | gpu_data =>
    simp only [Accessor.call, Call.exec, gpu_data] at h
    split at h
    · simp [Outcome.result] at h
    · split at h
      · simp [Outcome.result] at h
      · split at h
        · simp [Outcome.result] at h
        · rename_i u s2 e2 ht
          simp only [Outcome.result, Option.some.injEq, Prod.mk.injEq] at h
          obtain ⟨rfl, rfl⟩ := h
          exact to_gpu_head b s e u _ _ ht
  | mutable_gpu_data =>
    simp only [Accessor.call, Call.exec, mutable_gpu_data] at h
    split at h
    · simp [Outcome.result] at h
    · split at h
      · simp [Outcome.result] at h
      · split at h
        · simp [Outcome.result] at h
        · simp only [Outcome.result, Option.some.injEq, Prod.mk.injEq] at h
          obtain ⟨rfl, rfl⟩ := h
          rfl

theorem run_accessors_head (b : Bool) (as : List Accessor) :
    ∀ (s : SyncedMemory) (e : Env) (s1 : SyncedMemory) (e1 : Env),
      run b (as.map Accessor.call) s e = some (s1, e1) →
      s1.head_.residency = as.foldl spec_table s.head_.residency := by
  induction as with
  | nil =>
    intro s e s1 e1 h
    simp only [List.map_nil, run, Option.some.injEq, Prod.mk.injEq] at h
    obtain ⟨rfl, -⟩ := h
    rfl
  | cons a as ih =>
    intro s e s1 e1 h
    simp only [List.map_cons, run] at h
    split at h
    · simp at h
    · rename_i s2 e2 hx
      rw [List.foldl_cons, ← accessor_exec_head b a s e s2 e2 hx]
      exact ih s2 e2 s1 e1 h

theorem run_take_isSome (b : Bool) (cs : List Call) :
    ∀ (k : Nat) (s : SyncedMemory) (e : Env), (run b cs s e).isSome = true →
      (run b (cs.take k) s e).isSome = true := by
  induction cs with
  | nil => intro k s e h; simpa using h
  | cons c cs ih =>
    intro k s e h
    cases k with
    | zero => simp [run]
    | succ k =>
      simp only [List.take_succ_cons, run] at h ⊢
      split at h
      · simp at h
      · rename_i s2 e2 hx
        exact ih k s2 e2 h

/-- C4: take any finite sequence of `cpu_data`, `mutable_cpu_data`, `gpu_data`
and `mutable_gpu_data` calls that runs to its end on a freshly constructed
buffer. After each call (after the first `k` calls, for every `k`) the run has
returned and `head_` is the fold of the specification's transition table over
the calls made so far. A single accessor call maps the residency by the table
from any state at all, so the new residency depends on the old residency and
the accessor only. -/
theorem head_follows_spec_table (CPU_ONLY : Bool) (size : Nat) (d0 : Int) (e0 : Env)
    (as : List Accessor)
    (h : (run CPU_ONLY (as.map Accessor.call)
            (SyncedMemory.construct CPU_ONLY size d0 e0) e0).isSome = true) :
    (∀ k : Nat, ∃ s1 e1,
      run CPU_ONLY ((as.take k).map Accessor.call)
          (SyncedMemory.construct CPU_ONLY size d0 e0) e0 = some (s1, e1) ∧
      s1.head_.residency = (as.take k).foldl spec_table Residency.Uninitialized) ∧
    (∀ (a : Accessor) (s : SyncedMemory) (e : Env) (s2 : SyncedMemory) (e2 : Env),
      a.call.exec CPU_ONLY s e = some (s2, e2) →
      s2.head_.residency = spec_table s.head_.residency a) := by
  refine ⟨?_, fun a s e s2 e2 hx => accessor_exec_head CPU_ONLY a s e s2 e2 hx⟩
  intro k
  have hk := run_take_isSome CPU_ONLY (as.map Accessor.call) k _ _ h
  rw [← List.map_take] at hk
  obtain ⟨⟨s1, e1⟩, h1⟩ := Option.isSome_iff_exists.mp hk
  exact ⟨s1, e1, h1, run_accessors_head CPU_ONLY (as.take k) _ _ s1 e1 h1⟩

/-- C4, worked example: `cpu_data`, `gpu_data`, `mutable_cpu_data`,
`mutable_gpu_data` on the fresh four-byte buffer; after the third call the
residency is HostFresh, after the fourth DeviceFresh. -/
theorem head_follows_spec_table_witness :
    (run false
      ([Accessor.cpu_data, Accessor.gpu_data, Accessor.mutable_cpu_data,
        Accessor.mutable_gpu_data].map Accessor.call)
      (SyncedMemory.construct false 4 0 env0) env0).isSome = true ∧
    (∃ s1 e1,
      run false [Call.cpu_data, Call.gpu_data, Call.mutable_cpu_data]
          (SyncedMemory.construct false 4 0 env0) env0 = some (s1, e1) ∧
      s1.head_.residency = Residency.HostFresh) ∧
    (∃ s1 e1,
      run false [Call.cpu_data, Call.gpu_data, Call.mutable_cpu_data, Call.mutable_gpu_data]
          (SyncedMemory.construct false 4 0 env0) env0 = some (s1, e1) ∧
      s1.head_.residency = Residency.DeviceFresh) :=
  ⟨by rfl,
    (head_follows_spec_table false 4 0 env0
      [Accessor.cpu_data, Accessor.gpu_data, Accessor.mutable_cpu_data,
        Accessor.mutable_gpu_data] (by rfl)).1 3,
    (head_follows_spec_table false 4 0 env0
      [Accessor.cpu_data, Accessor.gpu_data, Accessor.mutable_cpu_data,
        Accessor.mutable_gpu_data] (by rfl)).1 4⟩

/-! ## Round trips -/

theorem to_cpu_frame (b : Bool) (s : SyncedMemory) (e : Env) (u : Unit)
    (s1 : SyncedMemory) (e1 : Env) (h : to_cpu b s e = Outcome.ok u s1 e1) :
    check_device b s e = true ∧ s1.gpu_ptr_ = s.gpu_ptr_ ∧
      s1.own_gpu_data_ = s.own_gpu_data_ ∧ s1.device_ = s.device_ ∧ s1.size_ = s.size_ ∧
      e1.cur_device = e.cur_device ∧ e1.ptr_device = e.ptr_device ∧
      e1.gpu_supply = e.gpu_supply ∧ e1.gpu_mem = e.gpu_mem := by
  simp only [to_cpu] at h
  split at h
  · simp at h
  · rename_i hdev
    simp only [Bool.not_eq_false] at hdev
    refine ⟨hdev, ?_⟩
    repeat' split at h
    all_goals first
      | (simp at h; done)
      | (rename_i hm
         obtain ⟨-, rest, -, rfl⟩ := CaffeMallocHost_some _ _ _ _ _ hm
         simp only [Outcome.ok.injEq] at h
         obtain ⟨-, rfl, rfl⟩ := h
         simp [caffe_memset, caffe_gpu_memcpy_d2h])
      | (simp only [Outcome.ok.injEq] at h
         obtain ⟨-, rfl, rfl⟩ := h
         simp [caffe_gpu_memcpy_d2h])

theorem to_gpu_frame (b : Bool) (s : SyncedMemory) (e : Env) (u : Unit)
    (s1 : SyncedMemory) (e1 : Env) (h : to_gpu b s e = Outcome.ok u s1 e1) :
    check_device b s e = true ∧ b = false ∧ s1.cpu_ptr_ = s.cpu_ptr_ ∧
      s1.own_gpu_data_ = s.own_gpu_data_ ∧ s1.own_cpu_data_ = s.own_cpu_data_ ∧
      s1.device_ = s.device_ ∧ s1.size_ = s.size_ ∧
      e1.cur_device = e.cur_device ∧ e1.ptr_device = e.ptr_device ∧
      e1.host_supply = e.host_supply ∧ e1.host_mem = e.host_mem := by
  simp only [to_gpu] at h
  split at h
  · simp at h
  · rename_i hdev
    simp only [Bool.not_eq_false] at hdev
    split at h
    · simp at h
    · rename_i hb
      simp only [Bool.not_eq_true] at hb
      refine ⟨hdev, hb, ?_⟩
      repeat' split at h
      all_goals first
        | (simp at h; done)
        | (rename_i hm
           obtain ⟨-, rest, -, rfl⟩ := cudaMalloc_some _ _ _ _ hm
           simp only [Outcome.ok.injEq] at h
           obtain ⟨-, rfl, rfl⟩ := h
           simp [caffe_gpu_memset, caffe_gpu_memcpy_h2d])
        | (simp only [Outcome.ok.injEq] at h
           obtain ⟨-, rfl, rfl⟩ := h
           simp [caffe_gpu_memcpy_h2d])

theorem check_device_congr (b : Bool) (s s1 : SyncedMemory) (e e1 : Env)
    (h1 : s1.gpu_ptr_ = s.gpu_ptr_) (h2 : s1.own_gpu_data_ = s.own_gpu_data_)
    (h3 : s1.device_ = s.device_) (h4 : e1.cur_device = e.cur_device)
    (h5 : e1.ptr_device = e.ptr_device) :
    check_device b s1 e1 = check_device b s e := by
  simp [check_device, h1, h2, h3, h4, h5]

theorem mutable_cpu_data_ok (b : Bool) (s : SyncedMemory) (e : Env) (hp : Nat)
    (s1 : SyncedMemory) (e1 : Env) (h : mutable_cpu_data b s e = Outcome.ok hp s1 e1) :
    ∃ s0, to_cpu b s e = Outcome.ok () s0 e1 ∧ hp = s0.cpu_ptr_ ∧
      s1 = { s0 with head_ := SyncedHead.HEAD_AT_CPU } := by
  simp only [mutable_cpu_data] at h
  split at h
  · simp at h
  · split at h
    · simp at h
    · rename_i u s0 e0 ht
      simp only [Outcome.ok.injEq] at h
      obtain ⟨rfl, rfl, rfl⟩ := h
      exact ⟨s0, ht, rfl, rfl⟩

theorem mutable_gpu_data_ok (b : Bool) (s : SyncedMemory) (e : Env) (gp : Nat)
    (s1 : SyncedMemory) (e1 : Env) (h : mutable_gpu_data b s e = Outcome.ok gp s1 e1) :
    ∃ s0, to_gpu b s e = Outcome.ok () s0 e1 ∧ gp = s0.gpu_ptr_ ∧
      s1 = { s0 with head_ := SyncedHead.HEAD_AT_GPU } := by
  simp only [mutable_gpu_data] at h
  split at h
  · simp at h
  · split at h
    · simp at h
    · split at h
      · simp at h
      · rename_i u s0 e0 ht
        simp only [Outcome.ok.injEq] at h
        obtain ⟨rfl, rfl, rfl⟩ := h
        exact ⟨s0, ht, rfl, rfl⟩

/-- C5: in the device build, let `mutable_cpu_data` return the host block `hp`
on a buffer of size `N = size_`, let the caller write a pattern `P` of `N`
bytes into that block, and let the allocator be able to serve a missing device
block. Then `gpu_data` returns; the device block it returns holds exactly the
bytes of `P`, a host-to-device copy of `N` bytes from `hp` to it is the last
call issued, and the residency is `SYNCED`. -/
theorem host_to_device_round_trip (s : SyncedMemory) (e : Env) (P : List Nat) (hp : Nat)
    (s1 : SyncedMemory) (e1 : Env)
    (hlen : P.length = s.size_)
    (h1 : mutable_cpu_data false s e = Outcome.ok hp s1 e1)
    (hsup : s.gpu_ptr_ = 0 → ∃ p rest, e.gpu_supply = p :: rest ∧ p ≠ 0) :
    ∃ gp s2 e2,
      gpu_data false s1 { e1 with host_mem := write_block e1.host_mem hp P }
        = Outcome.ok gp s2 e2 ∧
      gp = s2.gpu_ptr_ ∧
      block_bytes e2.gpu_mem gp s.size_ = P ∧
      block_bytes e2.host_mem hp s.size_ = P ∧
      s2.head_ = SyncedHead.SYNCED ∧
      e2.trace = (if s.gpu_ptr_ = 0 then e1.trace ++ [Event.gpu_malloc gp s.size_]
                  else e1.trace) ++ [Event.memcpy_h2d hp gp s.size_] := by
  obtain ⟨s0, ht, rfl, rfl⟩ := mutable_cpu_data_ok false s e hp s1 e1 h1
  obtain ⟨hdev, hg, ho, hd, hsz, hcd, hpd, hgs, -⟩ := to_cpu_frame false s e () s0 e1 ht
  have hdev1 : check_device false { s0 with head_ := SyncedHead.HEAD_AT_CPU }
      { e1 with host_mem := write_block e1.host_mem s0.cpu_ptr_ P } = true := by
    rw [← hdev]
    exact check_device_congr false s _ e _ hg ho hd hcd hpd
  by_cases h0 : s.gpu_ptr_ = 0
  · obtain ⟨p, rest, hs, hp0⟩ := hsup h0
    refine ⟨p, { s0 with gpu_ptr_ := p, head_ := SyncedHead.SYNCED },
      { e1 with host_mem := write_block e1.host_mem s0.cpu_ptr_ P, gpu_supply := rest,
                own_gpu_data := true,
                gpu_mem := mem_copy (write_block e1.host_mem s0.cpu_ptr_ P) s0.cpu_ptr_
                  e1.gpu_mem p s.size_,
                trace := e1.trace ++ [Event.gpu_malloc p s.size_] ++
                  [Event.memcpy_h2d s0.cpu_ptr_ p s.size_] },
      ?_, rfl, ?_, ?_, rfl, ?_⟩
    · simp only [gpu_data, hdev1, to_gpu]
      simp [hg, h0, cudaMalloc, hgs, hs, hp0, hsz, caffe_gpu_memcpy_h2d]
    · simp only []
      rw [block_bytes_mem_copy, ← hlen, block_bytes_write_block]
    · simp only []
      rw [← hlen, block_bytes_write_block]
    · simp [h0]
  · refine ⟨s.gpu_ptr_, { s0 with head_ := SyncedHead.SYNCED },
      { e1 with host_mem := write_block e1.host_mem s0.cpu_ptr_ P,
                gpu_mem := mem_copy (write_block e1.host_mem s0.cpu_ptr_ P) s0.cpu_ptr_
                  e1.gpu_mem s.gpu_ptr_ s.size_,
                trace := e1.trace ++ [Event.memcpy_h2d s0.cpu_ptr_ s.gpu_ptr_ s.size_] },
      ?_, hg.symm, ?_, ?_, rfl, ?_⟩
    · simp only [gpu_data, hdev1, to_gpu]
      simp [hg, h0, hsz, caffe_gpu_memcpy_h2d]
    · simp only []
      rw [block_bytes_mem_copy, ← hlen, block_bytes_write_block]
    · simp only []
      rw [← hlen, block_bytes_write_block]
    · simp [h0]

/-- C5, worked example: `mutable_cpu_data` on the fresh buffer returns block
5; after the caller writes 1, 2, 3, 4 into it, `gpu_data` returns a device
block holding 1, 2, 3, 4 and the residency is `SYNCED`. -/
theorem host_to_device_round_trip_witness :
    mutable_cpu_data false buf0 env0 = Outcome.ok 5 buf0_cpu env0_cpu ∧
    ∃ gp s2 e2,
      gpu_data false buf0_cpu { env0_cpu with host_mem := write_block env0_cpu.host_mem 5 [1, 2, 3, 4] }
        = Outcome.ok gp s2 e2 ∧
      gp = s2.gpu_ptr_ ∧
      block_bytes e2.gpu_mem gp 4 = [1, 2, 3, 4] ∧
      block_bytes e2.host_mem 5 4 = [1, 2, 3, 4] ∧
      s2.head_ = SyncedHead.SYNCED ∧
      e2.trace = (if buf0.gpu_ptr_ = 0 then env0_cpu.trace ++ [Event.gpu_malloc gp 4]
                  else env0_cpu.trace) ++ [Event.memcpy_h2d 5 gp 4] :=
  ⟨rfl, host_to_device_round_trip buf0 env0 [1, 2, 3, 4] 5 buf0_cpu env0_cpu rfl rfl
    (fun _ => ⟨7, [], rfl, by decide⟩)⟩

theorem check_device_not_owned (s s1 : SyncedMemory) (e e1 : Env)
    (h0 : s.own_gpu_data_ = false) (h2 : s1.own_gpu_data_ = s.own_gpu_data_)
    (h3 : s1.device_ = s.device_) (h4 : e1.cur_device = e.cur_device) :
    check_device false s1 e1 = check_device false s e := by
  simp [check_device, h0, h2, h3, h4]

/-- C6: in the device build, let `mutable_gpu_data` return the device block
`gp` on a buffer of size `N = size_` in a reachable state, let the caller
write a pattern `Q` of `N` bytes into that block, and let the allocator be
able to serve a missing host block. Then `cpu_data` returns; the host block it
returns holds exactly the bytes of `Q`, a device-to-host copy of `N` bytes
from `gp` to it is the last call issued, and the residency is `SYNCED`. -/
theorem device_to_host_round_trip (s : SyncedMemory) (e : Env) (Q : List Nat) (gp : Nat)
    (s1 : SyncedMemory) (e1 : Env)
    (hr : Reachable false s)
    (hlen : Q.length = s.size_)
    (h1 : mutable_gpu_data false s e = Outcome.ok gp s1 e1)
    (hsup : s.cpu_ptr_ = 0 → ∃ p uc rest, e.host_supply = (p, uc) :: rest ∧ p ≠ 0) :
    ∃ hp s2 e2,
      cpu_data false s1 { e1 with gpu_mem := write_block e1.gpu_mem gp Q }
        = Outcome.ok hp s2 e2 ∧
      hp = s2.cpu_ptr_ ∧
      block_bytes e2.host_mem hp s.size_ = Q ∧
      block_bytes e2.gpu_mem gp s.size_ = Q ∧
      s2.head_ = SyncedHead.SYNCED ∧
      e2.trace = (if s.cpu_ptr_ = 0 then e1.trace ++ [Event.host_malloc hp s.size_]
                  else e1.trace) ++ [Event.memcpy_d2h gp hp s.size_] := by
  obtain ⟨s0, ht, rfl, rfl⟩ := mutable_gpu_data_ok false s e gp s1 e1 h1
  obtain ⟨hdev, -, hc, ho, -, hd, hsz, hcd, hpd, hhs, -⟩ := to_gpu_frame false s e () s0 e1 ht
  have hown := (reachable_inv false s hr).2
  have hdev1 : check_device false { s0 with head_ := SyncedHead.HEAD_AT_GPU }
      { e1 with gpu_mem := write_block e1.gpu_mem s0.gpu_ptr_ Q } = true := by
    rw [← hdev]
    exact check_device_not_owned s _ e _ hown ho hd hcd
  by_cases h0 : s.cpu_ptr_ = 0
  · obtain ⟨p, uc, rest, hs, hp0⟩ := hsup h0
    refine ⟨p, { s0 with cpu_ptr_ := p, cpu_malloc_use_cuda_ := uc, own_cpu_data_ := true,
                         head_ := SyncedHead.SYNCED },
      { e1 with gpu_mem := write_block e1.gpu_mem s0.gpu_ptr_ Q, host_supply := rest,
                host_mem := mem_copy (write_block e1.gpu_mem s0.gpu_ptr_ Q) s0.gpu_ptr_
                  e1.host_mem p s.size_,
                trace := e1.trace ++ [Event.host_malloc p s.size_] ++
                  [Event.memcpy_d2h s0.gpu_ptr_ p s.size_] },
      ?_, rfl, ?_, ?_, rfl, ?_⟩
    · simp only [cpu_data, hdev1, to_cpu]
      simp [hc, h0, CaffeMallocHost, hhs, hs, hp0, hsz, caffe_gpu_memcpy_d2h]
    · simp only []
      rw [block_bytes_mem_copy, ← hlen, block_bytes_write_block]
    · simp only []
      rw [← hlen, block_bytes_write_block]
    · simp [h0]
  · refine ⟨s.cpu_ptr_, { s0 with head_ := SyncedHead.SYNCED },
      { e1 with gpu_mem := write_block e1.gpu_mem s0.gpu_ptr_ Q,
                host_mem := mem_copy (write_block e1.gpu_mem s0.gpu_ptr_ Q) s0.gpu_ptr_
                  e1.host_mem s.cpu_ptr_ s.size_,
                trace := e1.trace ++ [Event.memcpy_d2h s0.gpu_ptr_ s.cpu_ptr_ s.size_] },
      ?_, hc.symm, ?_, ?_, rfl, ?_⟩
    · simp only [cpu_data, hdev1, to_cpu]
      simp [hc, h0, hsz, caffe_gpu_memcpy_d2h]
    · simp only []
      rw [block_bytes_mem_copy, ← hlen, block_bytes_write_block]
    · simp only []
      rw [← hlen, block_bytes_write_block]
    · simp [h0]

/-- C6, worked example: `mutable_gpu_data` on the fresh buffer returns block
7; after the caller writes 9, 8, 7, 6 into it, `cpu_data` returns a host block
holding 9, 8, 7, 6 and the residency is `SYNCED`. -/
theorem device_to_host_round_trip_witness :
    Reachable false buf0 ∧
    mutable_gpu_data false buf0 env0 = Outcome.ok 7 buf0_gpu env0_gpu ∧
    ∃ hp s2 e2,
      cpu_data false buf0_gpu { env0_gpu with gpu_mem := write_block env0_gpu.gpu_mem 7 [9, 8, 7, 6] }
        = Outcome.ok hp s2 e2 ∧
      hp = s2.cpu_ptr_ ∧
      block_bytes e2.host_mem hp 4 = [9, 8, 7, 6] ∧
      block_bytes e2.gpu_mem 7 4 = [9, 8, 7, 6] ∧
      s2.head_ = SyncedHead.SYNCED ∧
      e2.trace = (if buf0.cpu_ptr_ = 0 then env0_gpu.trace ++ [Event.host_malloc hp 4]
                  else env0_gpu.trace) ++ [Event.memcpy_d2h 7 hp 4] :=
  ⟨Reachable.construct 4 0 env0, rfl,
    device_to_host_round_trip buf0 env0 [9, 8, 7, 6] 7 buf0_gpu env0_gpu
      (Reachable.construct 4 0 env0) rfl rfl (fun _ => ⟨5, false, [], rfl, by decide⟩)⟩

/-! ## Idempotence of `cpu_data` -/

theorem to_cpu_trace (b : Bool) (s : SyncedMemory) (e : Env) (u : Unit)
    (s1 : SyncedMemory) (e1 : Env) (h : to_cpu b s e = Outcome.ok u s1 e1) :
    ∃ evs, e1.trace = e.trace ++ evs ∧
      evs.countP Event.is_alloc ≤ 1 ∧ evs.countP Event.is_copy ≤ 1 := by
  simp only [to_cpu] at h
  split at h
  · simp at h
  · cases hh : s.head_ with
    | UNINITIALIZED =>
      simp only [hh] at h
      split at h
      · simp at h
      · rename_i p uc e0 hm
        obtain ⟨-, rest, -, rfl⟩ := CaffeMallocHost_some _ _ _ _ _ hm
        simp only [Outcome.ok.injEq] at h
        obtain ⟨-, -, rfl⟩ := h
        exact ⟨[Event.host_malloc p s.size_, Event.host_memset p s.size_],
          by simp [caffe_memset],
          by simp [List.countP_cons, Event.is_alloc], by simp [List.countP_cons, Event.is_copy]⟩
    | HEAD_AT_CPU =>
      simp only [hh, Outcome.ok.injEq] at h
      obtain ⟨-, -, rfl⟩ := h
      exact ⟨[], by simp, by decide, by decide⟩
    | HEAD_AT_GPU =>
      simp only [hh] at h
      split at h
      · simp at h
      · split at h
        · split at h
          · simp at h
          · rename_i p uc e0 hm
            obtain ⟨-, rest, -, rfl⟩ := CaffeMallocHost_some _ _ _ _ _ hm
            simp only [Outcome.ok.injEq] at h
            obtain ⟨-, -, rfl⟩ := h
            exact ⟨[Event.host_malloc p s.size_, Event.memcpy_d2h s.gpu_ptr_ p s.size_],
              by simp [caffe_gpu_memcpy_d2h],
            by simp [List.countP_cons, Event.is_alloc], by simp [List.countP_cons, Event.is_copy]⟩
        · simp only [Outcome.ok.injEq] at h
          obtain ⟨-, -, rfl⟩ := h
          exact ⟨[Event.memcpy_d2h s.gpu_ptr_ s.cpu_ptr_ s.size_],
            by simp [caffe_gpu_memcpy_d2h],
            by simp [List.countP_cons, Event.is_alloc], by simp [List.countP_cons, Event.is_copy]⟩
    | SYNCED =>
      simp only [hh, Outcome.ok.injEq] at h
      obtain ⟨-, -, rfl⟩ := h
      exact ⟨[], by simp, by decide, by decide⟩

theorem cpu_data_ok (b : Bool) (s : SyncedMemory) (e : Env) (p : Nat)
    (s1 : SyncedMemory) (e1 : Env) (h : cpu_data b s e = Outcome.ok p s1 e1) :
    to_cpu b s e = Outcome.ok () s1 e1 ∧ p = s1.cpu_ptr_ := by
  simp only [cpu_data] at h
  split at h
  · simp at h
  · split at h
    · simp at h
    · rename_i u s0 e0 ht
      simp only [Outcome.ok.injEq] at h
      obtain ⟨rfl, rfl, rfl⟩ := h
      exact ⟨ht, rfl⟩

/-- C7: when a `cpu_data` call returns, a second `cpu_data` call right after
it returns the same block and leaves the object and the whole environment,
the trace of external calls included, exactly as the first call left them: it
allocates nothing and copies nothing. The first call issued at most one
allocation and at most one copy, so the two calls together did. -/
theorem cpu_data_idempotent (CPU_ONLY : Bool) (s : SyncedMemory) (e : Env) (p : Nat)
    (s1 : SyncedMemory) (e1 : Env) (h : cpu_data CPU_ONLY s e = Outcome.ok p s1 e1) :
    cpu_data CPU_ONLY s1 e1 = Outcome.ok p s1 e1 ∧
    ∃ evs, e1.trace = e.trace ++ evs ∧
      evs.countP Event.is_alloc ≤ 1 ∧ evs.countP Event.is_copy ≤ 1 := by
  obtain ⟨ht, rfl⟩ := cpu_data_ok CPU_ONLY s e p s1 e1 h
  refine ⟨?_, to_cpu_trace CPU_ONLY s e () s1 e1 ht⟩
  obtain ⟨hdev, hg, ho, hd, -, hcd, hpd, -, -⟩ := to_cpu_frame CPU_ONLY s e () s1 e1 ht
  have hdev1 : check_device CPU_ONLY s1 e1 = true := by
    rw [← hdev]
    exact check_device_congr CPU_ONLY s s1 e e1 hg ho hd hcd hpd
  have hh : s1.head_ = SyncedHead.HEAD_AT_CPU ∨ s1.head_ = SyncedHead.SYNCED := by
    have := to_cpu_head CPU_ONLY s e () s1 e1 ht
    revert this
    cases s1.head_ <;> cases s.head_ <;>
      simp [SyncedHead.residency, spec_ensure_host_fresh]
  rcases hh with hh | hh <;> simp [cpu_data, to_cpu, hdev1, hh]

/-- C7, worked example: `cpu_data` twice on the fresh four-byte buffer. -/
theorem cpu_data_idempotent_witness :
    cpu_data false buf0 env0 = Outcome.ok 5 buf0_cpu env0_cpu ∧
    cpu_data false buf0_cpu env0_cpu = Outcome.ok 5 buf0_cpu env0_cpu ∧
    ∃ evs, env0_cpu.trace = env0.trace ++ evs ∧
      evs.countP Event.is_alloc ≤ 1 ∧ evs.countP Event.is_copy ≤ 1 :=
  ⟨rfl, cpu_data_idempotent false buf0 env0 5 buf0_cpu env0_cpu rfl⟩

/-! ## Adopting a block, and destruction -/

/-- C8, the code at the failing input: the fresh four-byte buffer, `cpu_data`
(the instance allocates block 5 and owns it), then `set_cpu_data(9)`. The call
frees block 5 and installs block 9 with `head_ = HEAD_AT_CPU`, leaving
`gpu_ptr_`, `own_gpu_data_` and `size_` alone, but the member `own_cpu_data_`
is still true afterwards: the assignment of line 137 went to `own_cpu_data`. -/
theorem set_cpu_data_own_cpu_data_stays_true :
    cpu_data false buf0 env0 = Outcome.ok 5 buf0_cpu env0_cpu ∧
    set_cpu_data false 9 buf0_cpu env0_cpu = Outcome.ok () buf0_adopted env0_adopted ∧
    buf0_adopted.cpu_ptr_ = 9 ∧
    buf0_adopted.head_ = SyncedHead.HEAD_AT_CPU ∧
    buf0_adopted.own_cpu_data_ = true ∧
    env0_adopted.own_cpu_data = false ∧
    env0_adopted.trace = env0_cpu.trace ++ [Event.host_free 5 false] ∧
    buf0_adopted.gpu_ptr_ = buf0_cpu.gpu_ptr_ ∧
    buf0_adopted.own_gpu_data_ = buf0_cpu.own_gpu_data_ ∧
    buf0_adopted.size_ = buf0_cpu.size_ := by
  refine ⟨rfl, rfl, rfl, rfl, rfl, rfl, rfl, rfl, rfl, rfl⟩

/-- C9, the code at the failing input: the fresh four-byte buffer of the
device build, `gpu_data` (the instance allocates device block 7), then
`set_gpu_data(9)`. The call installs block 9 with `head_ = HEAD_AT_GPU`, but it
does not pass block 7, which the instance allocated, to the device free
routine: the test of line 155 reads the member `own_gpu_data_`, which lines
102 and 107 never set. The destructor that follows frees nothing either, so
block 7 is never freed. -/
theorem set_gpu_data_does_not_free_allocated_block :
    Reachable false buf0_gpu ∧
    gpu_data false buf0 env0 = Outcome.ok 7 buf0_gpu env0_gpu ∧
    env0_gpu.trace.filter Event.is_alloc = [Event.gpu_malloc 7 4] ∧
    set_gpu_data false 9 buf0_gpu env0_gpu
      = Outcome.ok () buf0_gpu_adopted env0_gpu_adopted ∧
    buf0_gpu_adopted.gpu_ptr_ = 9 ∧
    buf0_gpu_adopted.head_ = SyncedHead.HEAD_AT_GPU ∧
    buf0_gpu_adopted.own_gpu_data_ = false ∧
    env0_gpu_adopted.trace = [Event.gpu_malloc 7 4, Event.gpu_memset 7 4] ∧
    env0_gpu_adopted.trace.filter Event.is_gpu_free = [] ∧
    SyncedMemory.destroy false buf0_gpu_adopted env0_gpu_adopted
      = Outcome.ok () buf0_gpu_adopted env0_gpu_adopted :=
  ⟨Reachable.call Call.gpu_data buf0 env0 buf0_gpu env0_gpu (Reachable.construct 4 0 env0) rfl,
    rfl, by decide, rfl, rfl, rfl, rfl, rfl, by decide, rfl⟩

/-- C10, the code at the failing input: the fresh four-byte buffer, `cpu_data`
(block 5 allocated and owned), `set_cpu_data(9)`, then the destructor. Because
`own_cpu_data_` is still true after `set_cpu_data`, the destructor passes the
adopted block 9 to the host free routine. -/
theorem destroy_frees_adopted_host_block :
    Reachable false buf0_cpu ∧
    set_cpu_data false 9 buf0_cpu env0_cpu = Outcome.ok () buf0_adopted env0_adopted ∧
    SyncedMemory.destroy false buf0_adopted env0_adopted = Outcome.ok () buf0_adopted
        { env0_adopted with
            trace := [Event.host_malloc 5 4, Event.host_memset 5 4,
                      Event.host_free 5 false, Event.host_free 9 false] } :=
  ⟨Reachable.call Call.cpu_data buf0 env0 buf0_cpu env0_cpu (Reachable.construct 4 0 env0) rfl,
    rfl, rfl⟩

/-! ## The asynchronous push -/

/-- C11: in the device build, whenever `head_` is not `HEAD_AT_CPU` on entry,
`async_gpu_push` aborts with the object and the environment, trace included,
exactly as they were: nothing was allocated or copied. When the device check
passes and the allocator can serve a missing device block, the call aborts if
and only if `head_` is not `HEAD_AT_CPU`. -/
theorem async_gpu_push_precondition (stream : Nat) (s : SyncedMemory) (e : Env)
    (hdev : check_device false s e = true)
    (hsup : s.gpu_ptr_ = 0 → ∃ p rest, e.gpu_supply = p :: rest ∧ p ≠ 0) :
    (s.head_ ≠ SyncedHead.HEAD_AT_CPU →
      async_gpu_push false stream s e = Outcome.fatal s e) ∧
    ((async_gpu_push false stream s e).result = none ↔
      s.head_ ≠ SyncedHead.HEAD_AT_CPU) := by
  constructor
  · intro hh
    simp [async_gpu_push, hdev, hh]
  · constructor
    · intro hf hh
      by_cases h0 : s.gpu_ptr_ = 0
      · obtain ⟨p, rest, hs, hp⟩ := hsup h0
        simp [async_gpu_push, hdev, hh, h0, cudaMalloc, hs, hp, Outcome.result] at hf
      · simp [async_gpu_push, hdev, hh, h0, Outcome.result] at hf
    · intro hh
      simp [async_gpu_push, hdev, hh, Outcome.result]

/-- C11, worked example: on the fresh buffer (`UNINITIALIZED`), after
`gpu_data` (`HEAD_AT_GPU`) and after `cpu_data`, `gpu_data` (`SYNCED`) the
push aborts and changes nothing. -/
theorem async_gpu_push_precondition_witness :
    (check_device false buf0 env0 = true ∧
      async_gpu_push false 3 buf0 env0 = Outcome.fatal buf0 env0) ∧
    (check_device false buf0_gpu env0_gpu = true ∧
      async_gpu_push false 3 buf0_gpu env0_gpu = Outcome.fatal buf0_gpu env0_gpu) ∧
    (check_device false buf0_synced env0_synced = true ∧
      async_gpu_push false 3 buf0_synced env0_synced
        = Outcome.fatal buf0_synced env0_synced) ∧
    ((async_gpu_push false 3 buf0_cpu env0_cpu).result = none ↔
      buf0_cpu.head_ ≠ SyncedHead.HEAD_AT_CPU) :=
  ⟨⟨by decide,
     (async_gpu_push_precondition 3 buf0 env0 (by decide)
       (fun _ => ⟨7, [], rfl, by decide⟩)).1 (by decide)⟩,
   ⟨by decide,
     (async_gpu_push_precondition 3 buf0_gpu env0_gpu (by decide)
       (fun h => absurd h (by decide))).1 (by decide)⟩,
   ⟨by decide,
     (async_gpu_push_precondition 3 buf0_synced env0_synced (by decide)
       (fun h => absurd h (by decide))).1 (by decide)⟩,
   (async_gpu_push_precondition 3 buf0_cpu env0_cpu (by decide)
     (fun _ => ⟨7, [], rfl, by decide⟩)).2⟩

/-- C12, the code at the failing input: the fresh four-byte buffer after
`cpu_data` (`HEAD_AT_CPU`, host block 5, no device block), then
`async_gpu_push` on stream 3. The call allocates device block 7 of four bytes,
issues one asynchronous host-to-device copy of four bytes on stream 3, sets
`head_` to `SYNCED` and leaves `cpu_ptr_`, `own_cpu_data_` and `size_` alone,
but the member `own_gpu_data_` is still false afterwards: the assignment of
line 192 went to `own_gpu_data`. -/
theorem async_gpu_push_own_gpu_data_stays_false :
    async_gpu_push false 3 buf0_cpu env0_cpu = Outcome.ok () buf0_synced env0_pushed ∧
    buf0_cpu.head_ = SyncedHead.HEAD_AT_CPU ∧ buf0_cpu.gpu_ptr_ = 0 ∧
    buf0_synced.gpu_ptr_ = 7 ∧
    buf0_synced.head_ = SyncedHead.SYNCED ∧
    buf0_synced.own_gpu_data_ = false ∧
    env0_pushed.own_gpu_data = true ∧
    env0_pushed.trace = env0_cpu.trace ++
      [Event.gpu_malloc 7 4, Event.memcpy_async_h2d 5 7 4 3] ∧
    buf0_synced.cpu_ptr_ = buf0_cpu.cpu_ptr_ ∧
    buf0_synced.own_cpu_data_ = buf0_cpu.own_cpu_data_ ∧
    buf0_synced.size_ = buf0_cpu.size_ := by
  refine ⟨rfl, rfl, rfl, rfl, rfl, rfl, rfl, rfl, rfl, rfl, rfl⟩

/-! ## Fatal misuse -/

/-- C13: in both builds and in every state, `set_cpu_data` and `set_gpu_data`
called with a null block abort, and the object and the environment at the
abort are those of the entry: no block was freed and no field changed. -/
theorem set_data_null_is_fatal (CPU_ONLY : Bool) (s : SyncedMemory) (e : Env) :
    set_cpu_data CPU_ONLY 0 s e = Outcome.fatal s e ∧
    set_gpu_data CPU_ONLY 0 s e = Outcome.fatal s e := by
  constructor
  · simp [set_cpu_data]
  · simp [set_gpu_data]

/-- C14: in the device build, whenever the current device differs from
`device_`, each of the seven public operations aborts with the object and the
environment, trace included, exactly as they were on entry. -/
theorem device_mismatch_is_fatal (s : SyncedMemory) (e : Env) (data stream : Nat)
    (h : e.cur_device ≠ s.device_) :
    cpu_data false s e = Outcome.fatal s e ∧
    gpu_data false s e = Outcome.fatal s e ∧
    mutable_cpu_data false s e = Outcome.fatal s e ∧
    mutable_gpu_data false s e = Outcome.fatal s e ∧
    set_cpu_data false data s e = Outcome.fatal s e ∧
    set_gpu_data false data s e = Outcome.fatal s e ∧
    async_gpu_push false stream s e = Outcome.fatal s e := by
  have hc : check_device false s e = false := by simp [check_device, h]
  refine ⟨?_, ?_, ?_, ?_, ?_, ?_, ?_⟩ <;>
    simp [cpu_data, gpu_data, mutable_cpu_data, mutable_gpu_data, set_cpu_data,
      set_gpu_data, async_gpu_push, hc]

/-- C14, worked example: the buffer constructed on device 0, used after the
current device has become device 1. -/
theorem device_mismatch_is_fatal_witness :
    env0_cpu_other_device.cur_device ≠ buf0_cpu.device_ ∧
    cpu_data false buf0_cpu env0_cpu_other_device
      = Outcome.fatal buf0_cpu env0_cpu_other_device ∧
    gpu_data false buf0_cpu env0_cpu_other_device
      = Outcome.fatal buf0_cpu env0_cpu_other_device ∧
    mutable_cpu_data false buf0_cpu env0_cpu_other_device
      = Outcome.fatal buf0_cpu env0_cpu_other_device ∧
    mutable_gpu_data false buf0_cpu env0_cpu_other_device
      = Outcome.fatal buf0_cpu env0_cpu_other_device ∧
    set_cpu_data false 9 buf0_cpu env0_cpu_other_device
      = Outcome.fatal buf0_cpu env0_cpu_other_device ∧
    set_gpu_data false 9 buf0_cpu env0_cpu_other_device
      = Outcome.fatal buf0_cpu env0_cpu_other_device ∧
    async_gpu_push false 3 buf0_cpu env0_cpu_other_device
      = Outcome.fatal buf0_cpu env0_cpu_other_device :=
  ⟨by decide, device_mismatch_is_fatal buf0_cpu env0_cpu_other_device 9 3 (by decide)⟩

/-! ## The build without device support -/

/-- C15: in a `CPU_ONLY` build `gpu_data`, `mutable_gpu_data` and
`set_gpu_data` abort in every state, in every environment and for every
argument, with the object and the environment unchanged. Hence a reachable
state has `head_` equal to `UNINITIALIZED` or `HEAD_AT_CPU`, never
`HEAD_AT_GPU` or `SYNCED`; and in a reachable state `cpu_data` and
`mutable_cpu_data` return whenever the allocator can serve a missing host
block, and `set_cpu_data` returns for every non-null block: none of them
reaches the `NO_GPU` abort. -/
theorem cpu_only_build (s : SyncedMemory) (e : Env) (data : Nat)
    (hr : Reachable true s) :
    (∀ (s1 : SyncedMemory) (e1 : Env) (X : Nat),
      gpu_data true s1 e1 = Outcome.fatal s1 e1 ∧
      mutable_gpu_data true s1 e1 = Outcome.fatal s1 e1 ∧
      set_gpu_data true X s1 e1 = Outcome.fatal s1 e1) ∧
    (s.head_ = SyncedHead.UNINITIALIZED ∨ s.head_ = SyncedHead.HEAD_AT_CPU) ∧
    ((s.cpu_ptr_ = 0 → ∃ p uc rest, e.host_supply = (p, uc) :: rest ∧ p ≠ 0) →
      (∃ p s1 e1, cpu_data true s e = Outcome.ok p s1 e1) ∧
      (∃ p s1 e1, mutable_cpu_data true s e = Outcome.ok p s1 e1)) ∧
    (data ≠ 0 → ∃ s1 e1, set_cpu_data true data s e = Outcome.ok () s1 e1) := by
  have hdev : check_device true s e = true := by simp [check_device]
  have hhead := reachable_cpu_only s hr
  refine ⟨?_, hhead, ?_, ?_⟩
  · intro s1 e1 X
    simp [gpu_data, mutable_gpu_data, set_gpu_data, check_device]
  · intro hsup
    have hi := (reachable_inv true s hr).1
    have hb : true = true → s.head_ ≠ SyncedHead.HEAD_AT_GPU := by
      intro _
      rcases hhead with h | h <;> simp [h]
    obtain ⟨s0, e0, h0⟩ := to_cpu_returns true s e hdev hb (fun h => hsup (by
      rcases h with h | h
      · have := hi
        simp only [residency_ok, h] at this
        exact this.1
      · exact h))
    exact ⟨⟨s0.cpu_ptr_, s0, e0, by simp [cpu_data, hdev, h0]⟩,
      ⟨s0.cpu_ptr_, { s0 with head_ := SyncedHead.HEAD_AT_CPU }, e0,
        by simp [mutable_cpu_data, hdev, h0]⟩⟩
  · intro hd
    exact ⟨{ s with cpu_ptr_ := data, head_ := SyncedHead.HEAD_AT_CPU },
      { (if s.own_cpu_data_ = true then CaffeFreeHost s.cpu_ptr_ s.cpu_malloc_use_cuda_ e
         else e) with own_cpu_data := false },
      by simp [set_cpu_data, hdev, hd]⟩

/-- C15, worked example: the fresh four-byte buffer of a `CPU_ONLY` build. -/
theorem cpu_only_build_witness :
    Reachable true buf0_cpu_only ∧
    gpu_data true buf0_cpu_only env0 = Outcome.fatal buf0_cpu_only env0 ∧
    mutable_gpu_data true buf0_cpu_only env0 = Outcome.fatal buf0_cpu_only env0 ∧
    set_gpu_data true 9 buf0_cpu_only env0 = Outcome.fatal buf0_cpu_only env0 ∧
    (∃ p s1 e1, cpu_data true buf0_cpu_only env0 = Outcome.ok p s1 e1) ∧
    (∃ p s1 e1, mutable_cpu_data true buf0_cpu_only env0 = Outcome.ok p s1 e1) ∧
    (∃ s1 e1, set_cpu_data true 9 buf0_cpu_only env0 = Outcome.ok () s1 e1) :=
  ⟨Reachable.construct 4 0 env0,
    ((cpu_only_build buf0_cpu_only env0 9 (Reachable.construct 4 0 env0)).1
      buf0_cpu_only env0 9).1,
    ((cpu_only_build buf0_cpu_only env0 9 (Reachable.construct 4 0 env0)).1
      buf0_cpu_only env0 9).2.1,
    ((cpu_only_build buf0_cpu_only env0 9 (Reachable.construct 4 0 env0)).1
      buf0_cpu_only env0 9).2.2,
    ((cpu_only_build buf0_cpu_only env0 9 (Reachable.construct 4 0 env0)).2.2.1
      (fun _ => ⟨5, false, [], rfl, by decide⟩)).1,
    ((cpu_only_build buf0_cpu_only env0 9 (Reachable.construct 4 0 env0)).2.2.1
      (fun _ => ⟨5, false, [], rfl, by decide⟩)).2,
    (cpu_only_build buf0_cpu_only env0 9 (Reachable.construct 4 0 env0)).2.2.2 (by decide)⟩

/-! ## Ownership and residency invariants -/

/-- C16, the code at the failing input: the fresh four-byte buffer, `cpu_data`,
then `set_cpu_data(9)`. The state is reachable, `own_cpu_data_` is true and
`cpu_ptr_` is block 9, which was supplied through `set_cpu_data`: the only
allocation the instance ever made is that of block 5. -/
theorem own_cpu_data_true_on_adopted_block :
    run false [Call.cpu_data, Call.set_cpu_data 9] buf0 env0
      = some (buf0_adopted, env0_adopted) ∧
    Reachable false buf0_adopted ∧
    buf0_adopted.own_cpu_data_ = true ∧
    buf0_adopted.cpu_ptr_ = 9 ∧
    env0_adopted.trace.filter Event.is_alloc = [Event.host_malloc 5 4] :=
  ⟨rfl,
    Reachable.call (Call.set_cpu_data 9) buf0_cpu env0_cpu buf0_adopted env0_adopted
      (Reachable.call Call.cpu_data buf0 env0 buf0_cpu env0_cpu
        (Reachable.construct 4 0 env0) rfl) rfl,
    rfl, rfl, by decide⟩

theorem to_cpu_agree (b : Bool) (s : SyncedMemory) (e : Env) (u : Unit)
    (s1 : SyncedMemory) (e1 : Env) (h : to_cpu b s e = Outcome.ok u s1 e1)
    (ha : blocks_agree s e) : blocks_agree s1 e1 := by
  simp only [to_cpu] at h
  split at h
  · simp at h
  · cases hh : s.head_ with
    | UNINITIALIZED =>
      simp only [hh] at h
      split at h
      · simp at h
      · simp only [Outcome.ok.injEq] at h
        obtain ⟨-, rfl, -⟩ := h
        intro hs
        simp at hs
    | HEAD_AT_CPU =>
      simp only [hh, Outcome.ok.injEq] at h
      obtain ⟨-, rfl, rfl⟩ := h
      exact ha
    | HEAD_AT_GPU =>
      simp only [hh] at h
      split at h
      · simp at h
      · split at h
        · split at h
          · simp at h
          · rename_i p uc e0 hm
            obtain ⟨-, rest, -, rfl⟩ := CaffeMallocHost_some _ _ _ _ _ hm
            simp only [Outcome.ok.injEq] at h
            obtain ⟨-, rfl, rfl⟩ := h
            intro _
            simp only [caffe_gpu_memcpy_d2h]
            exact block_bytes_mem_copy _ _ _ _ _
        · simp only [Outcome.ok.injEq] at h
          obtain ⟨-, rfl, rfl⟩ := h
          intro _
          simp only [caffe_gpu_memcpy_d2h]
          exact block_bytes_mem_copy _ _ _ _ _
    | SYNCED =>
      simp only [hh, Outcome.ok.injEq] at h
      obtain ⟨-, rfl, rfl⟩ := h
      exact ha

theorem to_gpu_agree (b : Bool) (s : SyncedMemory) (e : Env) (u : Unit)
    (s1 : SyncedMemory) (e1 : Env) (h : to_gpu b s e = Outcome.ok u s1 e1)
    (ha : blocks_agree s e) : blocks_agree s1 e1 := by
  simp only [to_gpu] at h
  split at h
  · simp at h
  · split at h
    · simp at h
    · cases hh : s.head_ with
      | UNINITIALIZED =>
        simp only [hh] at h
        split at h
        · simp at h
        · simp only [Outcome.ok.injEq] at h
          obtain ⟨-, rfl, -⟩ := h
          intro hs
          simp at hs
      | HEAD_AT_CPU =>
        simp only [hh] at h
        split at h
        · split at h
          · simp at h
          · rename_i p e0 hm
            obtain ⟨-, rest, -, rfl⟩ := cudaMalloc_some _ _ _ _ hm
            simp only [Outcome.ok.injEq] at h
            obtain ⟨-, rfl, rfl⟩ := h
            intro _
            simp only [caffe_gpu_memcpy_h2d]
            exact (block_bytes_mem_copy _ _ _ _ _).symm
        · simp only [Outcome.ok.injEq] at h
          obtain ⟨-, rfl, rfl⟩ := h
          intro _
          simp only [caffe_gpu_memcpy_h2d]
          exact (block_bytes_mem_copy _ _ _ _ _).symm
      | HEAD_AT_GPU =>
        simp only [hh, Outcome.ok.injEq] at h
        obtain ⟨-, rfl, rfl⟩ := h
        exact ha
      | SYNCED =>
        simp only [hh, Outcome.ok.injEq] at h
        obtain ⟨-, rfl, rfl⟩ := h
        exact ha

theorem exec_agree (b : Bool) (c : Call) (s : SyncedMemory) (e : Env)
    (s1 : SyncedMemory) (e1 : Env) (h : c.exec b s e = some (s1, e1))
    (ha : blocks_agree s e) : blocks_agree s1 e1 := by
  cases c with
  | cpu_data =>
    simp only [Call.exec] at h
    cases hc : cpu_data b s e with
    | fatal s2 e2 => simp [hc, Outcome.result] at h
    | ok p s2 e2 =>
      simp only [hc, Outcome.result, Option.some.injEq, Prod.mk.injEq] at h
      obtain ⟨rfl, rfl⟩ := h
      exact to_cpu_agree b s e () _ _ (cpu_data_ok b s e p _ _ hc).1 ha
  | gpu_data =>
    simp only [Call.exec, gpu_data] at h
    split at h
    · simp [Outcome.result] at h
    · split at h
      · simp [Outcome.result] at h
      · split at h
        · simp [Outcome.result] at h
        · rename_i u s2 e2 ht
          simp only [Outcome.result, Option.some.injEq, Prod.mk.injEq] at h
          obtain ⟨rfl, rfl⟩ := h
          exact to_gpu_agree b s e u _ _ ht ha
  | mutable_cpu_data =>
    simp only [Call.exec] at h
    cases hc : mutable_cpu_data b s e with
    | fatal s2 e2 => simp [hc, Outcome.result] at h
    | ok p s2 e2 =>
      simp only [hc, Outcome.result, Option.some.injEq, Prod.mk.injEq] at h
      obtain ⟨rfl, rfl⟩ := h
      obtain ⟨s0, -, -, rfl⟩ := mutable_cpu_data_ok b s e p _ _ hc
      intro hs
      simp at hs
  | mutable_gpu_data =>
    simp only [Call.exec] at h
    cases hc : mutable_gpu_data b s e with
    | fatal s2 e2 => simp [hc, Outcome.result] at h
    | ok p s2 e2 =>
      simp only [hc, Outcome.result, Option.some.injEq, Prod.mk.injEq] at h
      obtain ⟨rfl, rfl⟩ := h
      obtain ⟨s0, -, -, rfl⟩ := mutable_gpu_data_ok b s e p _ _ hc
      intro hs
      simp at hs
  | set_cpu_data data =>
    simp only [Call.exec, set_cpu_data] at h
    repeat' split at h
    all_goals first
      | (simp [Outcome.result] at h; done)
      | (simp only [Outcome.result, Option.some.injEq, Prod.mk.injEq] at h
         obtain ⟨rfl, -⟩ := h
         intro hs
         simp at hs)
  | set_gpu_data data =>
    simp only [Call.exec, set_gpu_data] at h
    repeat' split at h
    all_goals first
      | (simp [Outcome.result] at h; done)
      | (simp only [Outcome.result, Option.some.injEq, Prod.mk.injEq] at h
         obtain ⟨rfl, -⟩ := h
         intro hs
         simp at hs)
  | async_gpu_push stream =>
    simp only [Call.exec, async_gpu_push] at h
    split at h
    · simp [Outcome.result] at h
    · split at h
      · simp [Outcome.result] at h
      · split at h
        · simp [Outcome.result] at h
        · split at h
          · split at h
            · simp [Outcome.result] at h
            · rename_i p e0 hm
              obtain ⟨-, rest, -, rfl⟩ := cudaMalloc_some _ _ _ _ hm
              simp only [Outcome.result, Option.some.injEq, Prod.mk.injEq] at h
              obtain ⟨rfl, rfl⟩ := h
              intro _
              simp only [cudaMemcpyAsync]
              exact (block_bytes_mem_copy _ _ _ _ _).symm
          · simp only [Outcome.result, Option.some.injEq, Prod.mk.injEq] at h
            obtain ⟨rfl, rfl⟩ := h
            intro _
            simp only [cudaMemcpyAsync]
            exact (block_bytes_mem_copy _ _ _ _ _).symm

theorem run_preserves (b : Bool) (cs : List Call) :
    ∀ (s : SyncedMemory) (e : Env) (s1 : SyncedMemory) (e1 : Env),
      run b cs s e = some (s1, e1) →
      residency_ok s → s.own_gpu_data_ = false → blocks_agree s e →
      residency_ok s1 ∧ s1.own_gpu_data_ = false ∧ blocks_agree s1 e1 := by
  induction cs with
  | nil =>
    intro s e s1 e1 h hi hg ha
    simp only [run, Option.some.injEq, Prod.mk.injEq] at h
    obtain ⟨rfl, rfl⟩ := h
    exact ⟨hi, hg, ha⟩
  | cons c cs ih =>
    intro s e s1 e1 h hi hg ha
    simp only [run] at h
    split at h
    · simp at h
    · rename_i s2 e2 hx
      have h2 := exec_preserves b c s e s2 e2 hx hi hg
      exact ih s2 e2 s1 e1 h h2.1 h2.2 (exec_agree b c s e s2 e2 hx ha)

/-- C17: take any sequence of public operations that runs to its end on a
freshly constructed buffer, each asynchronous copy counted as complete when
issued. In the state it ends in, `head_ = UNINITIALIZED` implies both pointers
are null, `HEAD_AT_CPU` implies `cpu_ptr_` is non-null, `HEAD_AT_GPU` implies
`gpu_ptr_` is non-null, and `SYNCED` implies both are non-null and the first
`size_` bytes of the host block and of the device block are the same. -/
theorem residency_invariant (CPU_ONLY : Bool) (size : Nat) (d0 : Int) (e0 : Env)
    (cs : List Call) (s : SyncedMemory) (e : Env)
    (h : run CPU_ONLY cs (SyncedMemory.construct CPU_ONLY size d0 e0) e0 = some (s, e)) :
    (s.head_ = SyncedHead.UNINITIALIZED → s.cpu_ptr_ = 0 ∧ s.gpu_ptr_ = 0) ∧
    (s.head_ = SyncedHead.HEAD_AT_CPU → s.cpu_ptr_ ≠ 0) ∧
    (s.head_ = SyncedHead.HEAD_AT_GPU → s.gpu_ptr_ ≠ 0) ∧
    (s.head_ = SyncedHead.SYNCED → s.cpu_ptr_ ≠ 0 ∧ s.gpu_ptr_ ≠ 0 ∧
      block_bytes e.host_mem s.cpu_ptr_ s.size_ = block_bytes e.gpu_mem s.gpu_ptr_ s.size_) := by
  have h0 := run_preserves CPU_ONLY cs _ e0 s e h
    (by simp [SyncedMemory.construct, residency_ok]) rfl
    (by intro hs; simp [SyncedMemory.construct] at hs)
  obtain ⟨hi, -, ha⟩ := h0
  refine ⟨?_, ?_, ?_, ?_⟩
  · intro hh
    simpa [residency_ok, hh] using hi
  · intro hh
    simpa [residency_ok, hh] using hi
  · intro hh
    simpa [residency_ok, hh] using hi
  · intro hh
    have : s.cpu_ptr_ ≠ 0 ∧ s.gpu_ptr_ ≠ 0 := by simpa [residency_ok, hh] using hi
    exact ⟨this.1, this.2, ha hh⟩

/-- C17, worked example: `cpu_data` then `gpu_data` on the fresh four-byte
buffer end in `SYNCED` with blocks 5 and 7 holding the same four bytes. -/
theorem residency_invariant_witness :
    run false [Call.cpu_data, Call.gpu_data] (SyncedMemory.construct false 4 0 env0) env0
      = some (buf0_synced, env0_synced) ∧
    buf0_synced.head_ = SyncedHead.SYNCED ∧
    buf0_synced.cpu_ptr_ ≠ 0 ∧ buf0_synced.gpu_ptr_ ≠ 0 ∧
    block_bytes env0_synced.host_mem buf0_synced.cpu_ptr_ buf0_synced.size_
      = block_bytes env0_synced.gpu_mem buf0_synced.gpu_ptr_ buf0_synced.size_ :=
  ⟨rfl, rfl, (residency_invariant false 4 0 env0 [Call.cpu_data, Call.gpu_data]
    buf0_synced env0_synced rfl).2.2.2 rfl⟩

/-! ## The life of a buffer -/

/-- C18: for every size `N`, in the device build and with an allocator that
serves a host block `hp` and a device block `gp`: the buffer constructed with
size `N` is `UNINITIALIZED` with both pointers null and both ownership members
false; `cpu_data` then returns `hp`, a block of `N` zero bytes, with residency
`HEAD_AT_CPU`; `gpu_data` then allocates `gp`, copies `N` bytes host to
device, so that `gp` holds `N` zero bytes, and leaves residency `SYNCED`;
`mutable_cpu_data` then returns `hp` with residency `HEAD_AT_CPU` and leaves
the environment, trace included, as it was: no allocation and no copy. -/
theorem lifecycle_scenario (N : Nat) (d0 : Int) (e : Env) (hp : Nat) (uc : Bool)
    (hrest : List (Nat × Bool)) (gp : Nat) (grest : List Nat)
    (hh : e.host_supply = (hp, uc) :: hrest) (hhp : hp ≠ 0)
    (hg : e.gpu_supply = gp :: grest) (hgp : gp ≠ 0) :
    (SyncedMemory.construct false N d0 e).head_ = SyncedHead.UNINITIALIZED ∧
    (SyncedMemory.construct false N d0 e).cpu_ptr_ = 0 ∧
    (SyncedMemory.construct false N d0 e).gpu_ptr_ = 0 ∧
    (SyncedMemory.construct false N d0 e).own_cpu_data_ = false ∧
    (SyncedMemory.construct false N d0 e).own_gpu_data_ = false ∧
    (SyncedMemory.construct false N d0 e).size_ = N ∧
    ∃ s1 e1 s2 e2 s3,
      cpu_data false (SyncedMemory.construct false N d0 e) e = Outcome.ok hp s1 e1 ∧
      s1.head_ = SyncedHead.HEAD_AT_CPU ∧
      e1.trace = e.trace ++ [Event.host_malloc hp N, Event.host_memset hp N] ∧
      block_bytes e1.host_mem hp N = List.replicate N 0 ∧
      gpu_data false s1 e1 = Outcome.ok gp s2 e2 ∧
      s2.head_ = SyncedHead.SYNCED ∧
      e2.trace = e1.trace ++ [Event.gpu_malloc gp N, Event.memcpy_h2d hp gp N] ∧
      block_bytes e2.gpu_mem gp N = List.replicate N 0 ∧
      mutable_cpu_data false s2 e2 = Outcome.ok hp s3 e2 ∧
      s3.head_ = SyncedHead.HEAD_AT_CPU ∧
      s3 = { s2 with head_ := SyncedHead.HEAD_AT_CPU } := by
  refine ⟨rfl, rfl, rfl, rfl, rfl, rfl, ?_⟩
  refine ⟨{ SyncedMemory.construct false N d0 e with
              cpu_ptr_ := hp, cpu_malloc_use_cuda_ := uc,
              head_ := SyncedHead.HEAD_AT_CPU, own_cpu_data_ := true },
    { e with host_supply := hrest, host_mem := mem_set e.host_mem hp N 0,
             trace := e.trace ++ [Event.host_malloc hp N, Event.host_memset hp N] },
    { SyncedMemory.construct false N d0 e with
              cpu_ptr_ := hp, cpu_malloc_use_cuda_ := uc, own_cpu_data_ := true,
              gpu_ptr_ := gp, head_ := SyncedHead.SYNCED },
    { e with host_supply := hrest, host_mem := mem_set e.host_mem hp N 0,
             gpu_supply := grest, own_gpu_data := true,
             gpu_mem := mem_copy (mem_set e.host_mem hp N 0) hp e.gpu_mem gp N,
             trace := e.trace ++ [Event.host_malloc hp N, Event.host_memset hp N] ++
               [Event.gpu_malloc gp N, Event.memcpy_h2d hp gp N] },
    { SyncedMemory.construct false N d0 e with
              cpu_ptr_ := hp, cpu_malloc_use_cuda_ := uc, own_cpu_data_ := true,
              gpu_ptr_ := gp, head_ := SyncedHead.HEAD_AT_CPU },
    ?_, rfl, rfl, ?_, ?_, rfl, rfl, ?_, ?_, rfl, rfl⟩
  · simp [cpu_data, to_cpu, check_device, SyncedMemory.construct, CaffeMallocHost, hh, hhp,
      caffe_memset]
  · exact block_bytes_mem_set _ _ _ _
  · simp [gpu_data, to_gpu, check_device, SyncedMemory.construct, cudaMalloc, hg, hgp,
      caffe_gpu_memcpy_h2d]
  · simp only []
    rw [block_bytes_mem_copy]
    exact block_bytes_mem_set _ _ _ _
  · simp [mutable_cpu_data, to_cpu, check_device, SyncedMemory.construct]

/-- C18, worked example: the scenario with 1024 bytes in `env0`, where the
allocators serve host block 5 and device block 7. -/
theorem lifecycle_scenario_witness :
    env0.host_supply = [(5, false)] ∧ (5 : Nat) ≠ 0 ∧
    env0.gpu_supply = [7] ∧ (7 : Nat) ≠ 0 ∧
    ∃ s1 e1 s2 e2 s3,
      cpu_data false (SyncedMemory.construct false 1024 0 env0) env0 = Outcome.ok 5 s1 e1 ∧
      s1.head_ = SyncedHead.HEAD_AT_CPU ∧
      e1.trace = env0.trace ++ [Event.host_malloc 5 1024, Event.host_memset 5 1024] ∧
      block_bytes e1.host_mem 5 1024 = List.replicate 1024 0 ∧
      gpu_data false s1 e1 = Outcome.ok 7 s2 e2 ∧
      s2.head_ = SyncedHead.SYNCED ∧
      e2.trace = e1.trace ++ [Event.gpu_malloc 7 1024, Event.memcpy_h2d 5 7 1024] ∧
      block_bytes e2.gpu_mem 7 1024 = List.replicate 1024 0 ∧
      mutable_cpu_data false s2 e2 = Outcome.ok 5 s3 e2 ∧
      s3.head_ = SyncedHead.HEAD_AT_CPU ∧
      s3 = { s2 with head_ := SyncedHead.HEAD_AT_CPU } :=
  ⟨rfl, by decide, rfl, by decide,
    (lifecycle_scenario 1024 0 env0 5 false [] 7 [] rfl (by decide) rfl
      (by decide)).2.2.2.2.2.2⟩

/-- C19, the code at the failing input: the fresh four-byte buffer, `cpu_data`,
`gpu_data`, then the destructor. The instance allocated host block 5 and
device block 7; the destructor frees block 5 and nothing else, so device block
7 is never passed to the device free routine (`own_gpu_data_` was never set,
lines 102 and 107). -/
theorem device_block_is_never_freed :
    run false [Call.cpu_data, Call.gpu_data] buf0 env0 = some (buf0_synced, env0_synced) ∧
    SyncedMemory.destroy false buf0_synced env0_synced
      = Outcome.ok () buf0_synced env0_destroyed ∧
    env0_destroyed.trace.filter Event.is_alloc
      = [Event.host_malloc 5 4, Event.gpu_malloc 7 4] ∧
    env0_destroyed.trace.filter Event.is_host_free = [Event.host_free 5 false] ∧
    env0_destroyed.trace.filter Event.is_gpu_free = [] :=
  ⟨rfl, rfl, by decide, by decide, by decide⟩

/-- C20: in the device build, from a state with `head_ = HEAD_AT_CPU` in which
the device check passes and the allocator can serve a missing device block,
`gpu_data` and `async_gpu_push` both return, with the same object state (all
members, so `head_`, both pointers, both ownership members and `size_`). Their
environments differ in one respect only: the last call of the trace, a copy of
`size_` bytes from `cpu_ptr_` to the device block, is synchronous for
`gpu_data` and asynchronous on the given stream for `async_gpu_push`. The
numbers of allocations and of host-to-device copies in the two traces are
equal. -/
theorem async_gpu_push_matches_gpu_data (stream : Nat) (s : SyncedMemory) (e : Env)
    (hh : s.head_ = SyncedHead.HEAD_AT_CPU)
    (hdev : check_device false s e = true)
    (hsup : s.gpu_ptr_ = 0 → ∃ p rest, e.gpu_supply = p :: rest ∧ p ≠ 0) :
    ∃ gp s1 e1 e2 pre,
      gpu_data false s e = Outcome.ok gp s1 e1 ∧
      async_gpu_push false stream s e = Outcome.ok () s1 e2 ∧
      s1.head_ = SyncedHead.SYNCED ∧ s1.gpu_ptr_ = gp ∧
      e1.trace = pre ++ [Event.memcpy_h2d s.cpu_ptr_ gp s.size_] ∧
      e2 = { e1 with trace := pre ++ [Event.memcpy_async_h2d s.cpu_ptr_ gp s.size_ stream] } ∧
      e1.trace.countP Event.is_alloc = e2.trace.countP Event.is_alloc ∧
      e1.trace.countP Event.is_h2d = e2.trace.countP Event.is_h2d := by
  by_cases h0 : s.gpu_ptr_ = 0
  · obtain ⟨p, rest, hs, hp⟩ := hsup h0
    refine ⟨p, { s with gpu_ptr_ := p, head_ := SyncedHead.SYNCED },
      { e with gpu_supply := rest, own_gpu_data := true,
               gpu_mem := mem_copy e.host_mem s.cpu_ptr_ e.gpu_mem p s.size_,
               trace := (e.trace ++ [Event.gpu_malloc p s.size_]) ++
                 [Event.memcpy_h2d s.cpu_ptr_ p s.size_] },
      { e with gpu_supply := rest, own_gpu_data := true,
               gpu_mem := mem_copy e.host_mem s.cpu_ptr_ e.gpu_mem p s.size_,
               trace := (e.trace ++ [Event.gpu_malloc p s.size_]) ++
                 [Event.memcpy_async_h2d s.cpu_ptr_ p s.size_ stream] },
      e.trace ++ [Event.gpu_malloc p s.size_], ?_, ?_, rfl, rfl, rfl, rfl, ?_, ?_⟩
    · simp [gpu_data, to_gpu, hdev, hh, h0, cudaMalloc, hs, hp, caffe_gpu_memcpy_h2d]
    · simp [async_gpu_push, hdev, hh, h0, cudaMalloc, hs, hp, cudaMemcpyAsync]
    · simp [List.countP_append, List.countP_cons, Event.is_alloc]
    · simp [List.countP_append, List.countP_cons, Event.is_h2d]
  · refine ⟨s.gpu_ptr_, { s with head_ := SyncedHead.SYNCED },
      { e with gpu_mem := mem_copy e.host_mem s.cpu_ptr_ e.gpu_mem s.gpu_ptr_ s.size_,
               trace := e.trace ++ [Event.memcpy_h2d s.cpu_ptr_ s.gpu_ptr_ s.size_] },
      { e with gpu_mem := mem_copy e.host_mem s.cpu_ptr_ e.gpu_mem s.gpu_ptr_ s.size_,
               trace := e.trace ++
                 [Event.memcpy_async_h2d s.cpu_ptr_ s.gpu_ptr_ s.size_ stream] },
      e.trace, ?_, ?_, rfl, rfl, rfl, rfl, ?_, ?_⟩
    · simp [gpu_data, to_gpu, hdev, hh, h0, caffe_gpu_memcpy_h2d]
    · simp [async_gpu_push, hdev, hh, h0, cudaMemcpyAsync]
    · simp [List.countP_append, List.countP_cons, Event.is_alloc]
    · simp [List.countP_append, List.countP_cons, Event.is_h2d]

/-- C20, worked example: the fresh four-byte buffer after `cpu_data`; both
`gpu_data` and `async_gpu_push` on stream 3 allocate block 7 and end in
`buf0_synced`. -/
theorem async_gpu_push_matches_gpu_data_witness :
    buf0_cpu.head_ = SyncedHead.HEAD_AT_CPU ∧ check_device false buf0_cpu env0_cpu = true ∧
    gpu_data false buf0_cpu env0_cpu = Outcome.ok 7 buf0_synced env0_synced ∧
    async_gpu_push false 3 buf0_cpu env0_cpu = Outcome.ok () buf0_synced env0_pushed ∧
    ∃ gp s1 e1 e2 pre,
      gpu_data false buf0_cpu env0_cpu = Outcome.ok gp s1 e1 ∧
      async_gpu_push false 3 buf0_cpu env0_cpu = Outcome.ok () s1 e2 ∧
      s1.head_ = SyncedHead.SYNCED ∧ s1.gpu_ptr_ = gp ∧
      e1.trace = pre ++ [Event.memcpy_h2d buf0_cpu.cpu_ptr_ gp buf0_cpu.size_] ∧
      e2 = { e1 with
               trace := pre ++ [Event.memcpy_async_h2d buf0_cpu.cpu_ptr_ gp buf0_cpu.size_ 3] } ∧
      e1.trace.countP Event.is_alloc = e2.trace.countP Event.is_alloc ∧
      e1.trace.countP Event.is_h2d = e2.trace.countP Event.is_h2d :=
  ⟨rfl, by decide, rfl, rfl,
    async_gpu_push_matches_gpu_data 3 buf0_cpu env0_cpu rfl (by decide)
      (fun _ => ⟨7, [], rfl, by decide⟩)⟩

end caffe
